import Mathlib

/-!
Verification of the banking backend (Supabase edge functions).

The repository consists of seven request handlers over a relational store
with tables accounts, transactions, transfers and profiles:

* create-transfer (src/unnamed/part_000, first file),
* get-balance (src/unnamed/part_000, second file),
* create-transaction-or-transfer with the helpers handleTransaction and
  handleTransfer (src/unnamed/part_001, first file),
* get-profile (src/unnamed/part_001, second file),
* get-transactions, create-account, signup (src/supabase/functions).

The embedding below models each handler as a pure function from the request,
the database state and an environment (authentication oracle, clock,
generated reference numbers, and a success flag per fallible write call
site, mirroring the per-call error objects of the database client) to a
response, the new database state, and the trace of database operations the
handler issued.  Monetary values are integers counted
in the smallest currency unit: the store holds exact numeric(15,2) values,
integer multiples of 0.01, and every monetary computation of the handlers is
addition, subtraction, negation or an order comparison, all of which factor
exactly through that scaling (parseFloat on an exact value is modelled as
the identity).  Timestamps are naturals.  JSON
serialization is not modelled: responses carry the selected rows themselves.
Preflight OPTIONS requests, which return early before any logic, are outside
the model.
-/

namespace Bank

/-- A row of the accounts table, with the columns the handlers read
(select star returns the whole row; the handlers use both id and
account_number). -/
structure Account where
  id : String
  account_number : String
  user_id : String
  account_type : String
  balance : ℤ
  currency : String
  status : String
  created_at : Nat
deriving DecidableEq, Repr

/-- A row of the transactions table.  The create-transfer and create-account
handlers insert rows keyed by account_id; the create-transaction-or-transfer
handler inserts rows keyed by account_number; each kind leaves the other
column empty, hence both are optional. -/
structure Txn where
  id : String
  account_id : Option String
  account_number : Option String
  type : String
  amount : ℤ
  balance_after : ℤ
  description : String
  reference_number : Option String
  status : String
  created_at : Nat
deriving DecidableEq, Repr

/-- A row of the transfers table as the handlers insert it. -/
structure Transfer where
  id : String
  from_account_id : String
  to_account_id : String
  amount : ℤ
  reference_number : String
  notes : Option String
  status : String
  completed_at : Nat
deriving DecidableEq, Repr

/-- A row of the profiles table. -/
structure Profile where
  id : String
  full_name : String
  phone : Option String
  date_of_birth : Option String
  address : Option String
  created_at : Nat
  updated_at : Nat
deriving DecidableEq, Repr

/-- The database state. -/
structure Db where
  accounts : List Account
  transactions : List Txn
  transfers : List Transfer
  profiles : List Profile
deriving DecidableEq, Repr

/-- Well-formedness of the store: distinct account rows carry distinct ids
and distinct account numbers (ids come from the uuid generator, the account
number is the primary key of the schema). -/
def WellFormed (db : Db) : Prop :=
  db.accounts.Pairwise fun a b => a.id ≠ b.id ∧ a.account_number ≠ b.account_number

instance (db : Db) : Decidable (WellFormed db) := by
  unfold WellFormed; infer_instance

/-- Database operations a handler can issue, recorded in its trace. -/
inductive DbOp where
  | selectAccounts
  | selectProfiles
  | selectTransactions
  | selectTransfers
  | rpcRef
  | rpcAccountNumber
  | updateAccount (id : String)
  | updateAccountByNumber (account_number : String)
  | insertTransfer
  | insertTransactions
  | insertAccount
  | insertProfile
deriving DecidableEq, Repr

/-- Whether a database operation writes to a table (the reference-number and
account-number generators are volatile SQL functions that write nothing). -/
def DbOp.isWrite : DbOp → Bool
  | .updateAccount _ => true
  | .updateAccountByNumber _ => true
  | .insertTransfer => true
  | .insertTransactions => true
  | .insertAccount => true
  | .insertProfile => true
  | _ => false

/-- Result of a PostgREST query with the single modifier: an error unless
exactly one row matches. -/
def single (rows : List α) : Except Unit α :=
  match rows with
  | [a] => Except.ok a
  | _ => Except.error ()

/-- Result of a PostgREST query with the maybeSingle modifier: none on no
match, the row on one match, an error on several. -/
def maybeSingle (rows : List α) : Except Unit (Option α) :=
  match rows with
  | [] => Except.ok none
  | [a] => Except.ok (some a)
  | _ => Except.error ()

/-- Token extraction from the Authorization header
(authHeader.replace applied to the Bearer marker). -/
def stripBearer (s : String) : String :=
  s.replace "Bearer " ""

/-- JavaScript truthiness of a possibly absent query parameter: present and
not the empty string. -/
def truthy : Option String → Bool
  | none => false
  | some s => s ≠ ""

/-- update({ balance: b }).eq(id, target): set the balance of every row
whose id matches. -/
def updateBalanceById (accounts : List Account) (target : String) (b : ℤ) :
    List Account :=
  accounts.map fun a => if a.id = target then { a with balance := b } else a

/-- update({ balance: b }).eq(account_number, target). -/
def updateBalanceByNumber (accounts : List Account) (target : String) (b : ℤ) :
    List Account :=
  accounts.map fun a =>
    if a.account_number = target then { a with balance := b } else a

/-- The environment of a request: the authentication oracle of the identity
provider, the values produced by the clock and the SQL generator functions,
the outcome of auth.signUp, and one success flag per fallible write call
site (the database client reports errors per call; a failed call leaves the
table unchanged). -/
structure Env where
  getUser : String → Option String
  userEmail : String
  refNumber : String
  accountNumber : String
  genId : Nat → String
  now : Nat
  signUpResult : Option String
  failUpdateFrom : Bool
  failUpdateTo : Bool
  failRollback : Bool
  failInsertTransfer : Bool
  failInsertTxns : Bool
  failUpdateBalance : Bool

/-! ## create-transfer (src/unnamed/part_000, first file) -/

namespace CreateTransfer

/-- The request body of the create-transfer handler. -/
structure TransferRequest where
  from_account_id : String
  to_account_number : String
  amount : ℤ
  notes : Option String
deriving DecidableEq, Repr

/-- The response of the create-transfer handler: the status, the error
message of an error body, and on success the inserted transfer row together
with the reference number. -/
structure Response where
  status : Nat
  error : Option String
  transfer : Option Transfer
  reference_number : Option String
deriving DecidableEq, Repr

/-- An error response of the handler. -/
def Response.err (status : Nat) (msg : String) : Response :=
  ⟨status, some msg, none, none⟩

/-- The filter of the source-account query: eq(id).eq(user_id).eq(status
active). -/
def fromFilter (req : TransferRequest) (uid : String) (a : Account) : Bool :=
  a.id = req.from_account_id ∧ a.user_id = uid ∧ a.status = "active"

/-- The filter of the destination-account query: eq(account_number).eq(status
active). -/
def toFilter (req : TransferRequest) (a : Account) : Bool :=
  a.account_number = req.to_account_number ∧ a.status = "active"

/-- The create-transfer handler.  Returns the response, the new database
state and the trace of issued database operations.  Thrown errors surface
through the catch block as status 500; the database error message is not
modelled and stands as a fixed string. -/
def run (db : Db) (env : Env) (authHeader : Option String)
    (req : TransferRequest) : Response × Db × List DbOp :=
  match authHeader with
  | none => (Response.err 401 "Missing authorization header", db, [])
  | some h =>
    match env.getUser (stripBearer h) with
    | none => (Response.err 401 "Unauthorized", db, [])
    | some uid =>
      if req.amount ≤ 0 then
        (Response.err 400 "Amount must be greater than 0", db, [])
      else
        match single (db.accounts.filter (fromFilter req uid)) with
        | Except.error _ =>
          (Response.err 404 "Source account not found or inactive", db,
            [DbOp.selectAccounts])
        | Except.ok fromAccount =>
          if fromAccount.balance < req.amount then
            (Response.err 400 "Insufficient funds", db, [DbOp.selectAccounts])
          else
            match single (db.accounts.filter (toFilter req)) with
            | Except.error _ =>
              (Response.err 404 "Destination account not found or inactive",
                db, [DbOp.selectAccounts, DbOp.selectAccounts])
            | Except.ok toAccount =>
              if fromAccount.id = toAccount.id then
                (Response.err 400 "Cannot transfer to the same account", db,
                  [DbOp.selectAccounts, DbOp.selectAccounts])
              else
                let refNumber := env.refNumber
                let newFromBalance := fromAccount.balance - req.amount
                let newToBalance := toAccount.balance + req.amount
                let tr0 : List DbOp :=
                  [DbOp.selectAccounts, DbOp.selectAccounts, DbOp.rpcRef]
                if env.failUpdateFrom then
                  (Response.err 500 "database error", db,
                    tr0 ++ [DbOp.updateAccount fromAccount.id])
                else
                  let acc1 :=
                    updateBalanceById db.accounts fromAccount.id newFromBalance
                  let db1 := { db with accounts := acc1 }
                  if env.failUpdateTo then
                    -- rollback of the source account, then throw
                    if env.failRollback then
                      (Response.err 500 "database error", db1,
                        tr0 ++ [DbOp.updateAccount fromAccount.id,
                          DbOp.updateAccount toAccount.id,
                          DbOp.updateAccount fromAccount.id])
                    else
                      let acc2 :=
                        updateBalanceById db1.accounts fromAccount.id
                          fromAccount.balance
                      let db2 := { db1 with accounts := acc2 }
                      (Response.err 500 "database error", db2,
                        tr0 ++ [DbOp.updateAccount fromAccount.id,
                          DbOp.updateAccount toAccount.id,
                          DbOp.updateAccount fromAccount.id])
                  else
                    let acc2 :=
                      updateBalanceById db1.accounts toAccount.id newToBalance
                    let db2 := { db1 with accounts := acc2 }
                    let tr1 := tr0 ++ [DbOp.updateAccount fromAccount.id,
                      DbOp.updateAccount toAccount.id, DbOp.insertTransfer]
                    if env.failInsertTransfer then
                      (Response.err 500 "database error", db2, tr1)
                    else
                      let transfer : Transfer :=
                        { id := env.genId 0
                          from_account_id := fromAccount.id
                          to_account_id := toAccount.id
                          amount := req.amount
                          reference_number := refNumber
                          notes := req.notes
                          status := "completed"
                          completed_at := env.now }
                      let db3 :=
                        { db2 with transfers := db2.transfers ++ [transfer] }
                      let debit : Txn :=
                        { id := env.genId 1
                          account_id := some fromAccount.id
                          account_number := none
                          type := "transfer"
                          amount := -req.amount
                          balance_after := newFromBalance
                          description := "Transfer to " ++ req.to_account_number
                          reference_number := some refNumber
                          status := "completed"
                          created_at := env.now }
                      let credit : Txn :=
                        { id := env.genId 2
                          account_id := some toAccount.id
                          account_number := none
                          type := "transfer"
                          amount := req.amount
                          balance_after := newToBalance
                          description :=
                            "Transfer from " ++ fromAccount.account_number
                          reference_number := some refNumber
                          status := "completed"
                          created_at := env.now }
                      -- the result of the transactions insert is discarded,
                      -- so a failure of it still yields the 200 response
                      let db4 :=
                        if env.failInsertTxns then db3
                        else { db3 with
                          transactions := db3.transactions ++ [debit, credit] }
                      (⟨200, none, some transfer, some refNumber⟩, db4,
                        tr1 ++ [DbOp.insertTransactions])

end CreateTransfer

/-! ## create-transaction-or-transfer (src/unnamed/part_001, first file) -/

namespace TxnOrTransfer

/-- The body of a deposit or withdrawal request. -/
structure TransactionRequest where
  account_number : String
  type : String
  amount : ℤ
  description : Option String
  reference_number : Option String
deriving DecidableEq, Repr

/-- The body of a transfer request of this handler. -/
structure TransferRequest where
  from_account_number : String
  to_account_number : String
  amount : ℤ
  notes : Option String
deriving DecidableEq, Repr

/-- The request body: the dispatch branches on whether the type field is
transfer. -/
inductive RequestBody where
  | txn (t : TransactionRequest)
  | transfer (t : TransferRequest)
deriving DecidableEq, Repr

/-- The response: status, error message, and the payloads of the two
branches (the inserted transaction row, or the inserted transfer row with
the reference number). -/
structure Response where
  status : Nat
  error : Option String
  transaction : Option Txn
  transfer : Option Transfer
  reference_number : Option String
deriving DecidableEq, Repr

/-- An error response of the handler. -/
def Response.err (status : Nat) (msg : String) : Response :=
  ⟨status, some msg, none, none, none⟩

/-- The account filter of handleTransaction:
eq(account_number).eq(user_id).eq(status active). -/
def accountFilter (req : TransactionRequest) (uid : String) (a : Account) :
    Bool :=
  a.account_number = req.account_number ∧ a.user_id = uid ∧ a.status = "active"

/-- handleTransaction: deposits and withdrawals.  The update error is
rethrown; the transaction-insert error is rethrown after the balance was
already updated. -/
def handleTransaction (db : Db) (env : Env) (userId : String)
    (req : TransactionRequest) : Response × Db × List DbOp :=
  if req.amount ≤ 0 then
    (Response.err 400 "Amount must be > 0", db, [])
  else
    match maybeSingle (db.accounts.filter (accountFilter req userId)) with
    | Except.error _ =>
      (Response.err 404 "Account not found", db, [DbOp.selectAccounts])
    | Except.ok none =>
      (Response.err 404 "Account not found", db, [DbOp.selectAccounts])
    | Except.ok (some account) =>
      if req.type = "withdrawal" ∧ account.balance < req.amount then
        (Response.err 400 "Insufficient funds", db, [DbOp.selectAccounts])
      else
        let amountChange :=
          if req.type = "deposit" then req.amount else -req.amount
        let newBalance := account.balance + amountChange
        let tr0 := [DbOp.selectAccounts,
          DbOp.updateAccountByNumber account.account_number]
        if env.failUpdateBalance then
          (Response.err 500 "database error", db, tr0)
        else
          let acc1 :=
            updateBalanceByNumber db.accounts account.account_number newBalance
          let db1 := { db with accounts := acc1 }
          let txn : Txn :=
            { id := env.genId 0
              account_id := none
              account_number := some req.account_number
              type := req.type
              amount := req.amount
              balance_after := newBalance
              description := req.description.getD req.type.toUpper
              reference_number := req.reference_number
              status := "completed"
              created_at := env.now }
          if env.failInsertTxns then
            (Response.err 500 "database error", db1,
              tr0 ++ [DbOp.insertTransactions])
          else
            let db2 :=
              { db1 with transactions := db1.transactions ++ [txn] }
            (⟨201, none, some txn, none, none⟩, db2,
              tr0 ++ [DbOp.insertTransactions])

/-- The source-account filter of handleTransfer:
eq(account_number).eq(user_id).eq(status active). -/
def fromFilter (req : TransferRequest) (uid : String) (a : Account) : Bool :=
  a.account_number = req.from_account_number ∧ a.user_id = uid ∧
    a.status = "active"

/-- The destination-account filter of handleTransfer:
eq(account_number).eq(status active). -/
def toFilter (req : TransferRequest) (a : Account) : Bool :=
  a.account_number = req.to_account_number ∧ a.status = "active"

/-- handleTransfer.  Unlike create-transfer, no error of the four writes is
inspected: a failed update or insert leaves its table unchanged and the
handler proceeds to the 201 response regardless.  There is no same-account
guard and no rollback. -/
def handleTransfer (db : Db) (env : Env) (userId : String)
    (req : TransferRequest) : Response × Db × List DbOp :=
  if req.amount ≤ 0 then
    (Response.err 400 "Amount must be > 0", db, [])
  else
    match maybeSingle (db.accounts.filter (fromFilter req userId)) with
    | Except.error _ =>
      (Response.err 404 "Source account not found", db, [DbOp.selectAccounts])
    | Except.ok none =>
      (Response.err 404 "Source account not found", db, [DbOp.selectAccounts])
    | Except.ok (some fromAccount) =>
      if fromAccount.balance < req.amount then
        (Response.err 400 "Insufficient funds", db, [DbOp.selectAccounts])
      else
        match maybeSingle (db.accounts.filter (toFilter req)) with
        | Except.error _ =>
          (Response.err 404 "Destination not found", db,
            [DbOp.selectAccounts, DbOp.selectAccounts])
        | Except.ok none =>
          (Response.err 404 "Destination not found", db,
            [DbOp.selectAccounts, DbOp.selectAccounts])
        | Except.ok (some toAccount) =>
          let reference_number := env.refNumber
          let newFromBalance := fromAccount.balance - req.amount
          let newToBalance := toAccount.balance + req.amount
          let acc1 :=
            if env.failUpdateFrom then db.accounts
            else updateBalanceById db.accounts fromAccount.id newFromBalance
          let acc2 :=
            if env.failUpdateTo then acc1
            else updateBalanceById acc1 toAccount.id newToBalance
          let db2 := { db with accounts := acc2 }
          let transferRow : Transfer :=
            { id := env.genId 0
              from_account_id := fromAccount.id
              to_account_id := toAccount.id
              amount := req.amount
              reference_number := reference_number
              notes := req.notes
              status := "completed"
              completed_at := env.now }
          let db3 :=
            if env.failInsertTransfer then db2
            else { db2 with transfers := db2.transfers ++ [transferRow] }
          let transferData : Option Transfer :=
            if env.failInsertTransfer then none else some transferRow
          -- both transaction rows carry the positive amount
          let t1 : Txn :=
            { id := env.genId 1
              account_id := none
              account_number := some fromAccount.account_number
              type := "transfer"
              amount := req.amount
              balance_after := newFromBalance
              description := "Transfer to " ++ req.to_account_number
              reference_number := some reference_number
              status := "completed"
              created_at := env.now }
          let t2 : Txn :=
            { id := env.genId 2
              account_id := none
              account_number := some toAccount.account_number
              type := "transfer"
              amount := req.amount
              balance_after := newToBalance
              description := "Transfer from " ++ req.from_account_number
              reference_number := some reference_number
              status := "completed"
              created_at := env.now }
          let db4 :=
            if env.failInsertTxns then db3
            else { db3 with transactions := db3.transactions ++ [t1, t2] }
          (⟨201, none, none, transferData, some reference_number⟩, db4,
            [DbOp.selectAccounts, DbOp.selectAccounts, DbOp.rpcRef,
              DbOp.updateAccount fromAccount.id,
              DbOp.updateAccount toAccount.id, DbOp.insertTransfer,
              DbOp.insertTransactions])

/-- The serving dispatch of create-transaction-or-transfer: authentication,
then branch on the body type. -/
def run (db : Db) (env : Env) (authHeader : Option String)
    (body : RequestBody) : Response × Db × List DbOp :=
  match authHeader with
  | none => (Response.err 401 "Missing authorization header", db, [])
  | some h =>
    match env.getUser (stripBearer h) with
    | none => (Response.err 401 "Unauthorized", db, [])
    | some uid =>
      match body with
      | RequestBody.transfer t => handleTransfer db env uid t
      | RequestBody.txn t => handleTransaction db env uid t

end TxnOrTransfer

/-- order(created_at descending) and the client-side descending sort by
date, modelled by insertion sort on the comparator ordering (the observable
content is a sorted permutation). -/
def sortByDesc (key : α → Nat) (l : List α) : List α :=
  @List.insertionSort α (fun a b => key b ≤ key a)
    (fun _ _ => Nat.decLe _ _) l

/-! ## get-balance (src/unnamed/part_000, second file) -/

namespace GetBalance

/-- The response of get-balance.  Responses carry the selected rows; the
JSON layer projects the serialized columns from them. -/
structure Response where
  status : Nat
  error : Option String
  profile : Option Profile
  account : Option Account
  all_accounts : List Account
  total_balance : ℤ
deriving DecidableEq, Repr

/-- An error response of the handler. -/
def Response.err (status : Nat) (msg : String) : Response :=
  ⟨status, some msg, none, none, [], 0⟩

/-- The rows the account query of get-balance matches: by account_number
when that parameter is truthy, otherwise by user_id. -/
def lookupRows (db : Db) (accountNumber userIdParam : Option String) :
    List Account :=
  if truthy accountNumber then
    db.accounts.filter fun a => a.account_number = accountNumber.getD ""
  else
    db.accounts.filter fun a => a.user_id = userIdParam.getD ""

/-- The get-balance handler.  The query parameters are checked before the
Authorization header; the account is then fetched with the admin client and
ownership is enforced afterwards. -/
def run (db : Db) (env : Env) (accountNumber userIdParam : Option String)
    (authHeader : Option String) : Response × Db × List DbOp :=
  if ¬ truthy accountNumber ∧ ¬ truthy userIdParam then
    (Response.err 400
      "Either account_number or user_id query parameter is required", db, [])
  else
    match authHeader with
    | none => (Response.err 401 "Missing authorization header", db, [])
    | some h =>
      match env.getUser (stripBearer h) with
      | none => (Response.err 401 "Unauthorized", db, [])
      | some userId =>
        match maybeSingle (lookupRows db accountNumber userIdParam) with
        | Except.error _ =>
          (Response.err 500 "database error", db, [DbOp.selectAccounts])
        | Except.ok none =>
          (Response.err 404 "Account not found", db, [DbOp.selectAccounts])
        | Except.ok (some account) =>
          if account.user_id ≠ userId then
            (Response.err 403 "Unauthorized access to this account", db,
              [DbOp.selectAccounts])
          else
            match maybeSingle (db.profiles.filter fun p => p.id = userId) with
            | Except.error _ =>
              (Response.err 500 "database error", db,
                [DbOp.selectAccounts, DbOp.selectProfiles])
            | Except.ok profile =>
              let allAccounts := sortByDesc (fun a => a.created_at)
                (db.accounts.filter fun a => a.user_id = userId)
              let totalBalance := (allAccounts.map fun a => a.balance).sum
              (⟨200, none, profile, some account, allAccounts, totalBalance⟩,
                db,
                [DbOp.selectAccounts, DbOp.selectProfiles, DbOp.selectAccounts])

end GetBalance

/-! ## get-profile (src/unnamed/part_001, second file) -/

namespace GetProfile

/-- The response of the profile handler. -/
structure Response where
  status : Nat
  error : Option String
  profile : Option Profile
  accounts : List Account
  total_balance : ℤ
  email : Option String
deriving DecidableEq, Repr

/-- An error response of the handler. -/
def Response.err (status : Nat) (msg : String) : Response :=
  ⟨status, some msg, none, [], 0, none⟩

/-- The profile handler: authentication, then the profile of the caller and
the accounts of the caller with their total balance. -/
def run (db : Db) (env : Env) (authHeader : Option String) :
    Response × Db × List DbOp :=
  match authHeader with
  | none => (Response.err 401 "Missing authorization header", db, [])
  | some h =>
    match env.getUser (stripBearer h) with
    | none => (Response.err 401 "Unauthorized", db, [])
    | some uid =>
      match maybeSingle (db.profiles.filter fun p => p.id = uid) with
      | Except.error _ =>
        (Response.err 500 "database error", db, [DbOp.selectProfiles])
      | Except.ok profile =>
        let accounts := sortByDesc (fun a => a.created_at)
          (db.accounts.filter fun a => a.user_id = uid)
        let totalBalance := (accounts.map fun a => a.balance).sum
        (⟨200, none, profile, accounts, totalBalance, some env.userEmail⟩,
          db, [DbOp.selectProfiles, DbOp.selectAccounts])

end GetProfile

/-! ## get-transactions (src/supabase/functions/get-transactions/index.ts) -/

namespace GetTransactions

/-- A merged record of the combined transactions-and-transfers list. -/
structure CombinedRecord where
  id : String
  type : String
  transaction_type : Option String
  amount : ℤ
  account_number : Option String
  balance_after : Option ℤ
  description : Option String
  from_account_number : Option String
  to_account_number : Option String
  notes : Option String
  reference_number : Option String
  status : String
  created_at : Nat
deriving DecidableEq, Repr

/-- The response of get-transactions. -/
structure Response where
  status : Nat
  error : Option String
  transactions : List CombinedRecord
deriving DecidableEq, Repr

/-- An error response of the handler. -/
def Response.err (status : Nat) (msg : String) : Response :=
  ⟨status, some msg, []⟩

/-- The account number of the account row with the given id, the embedded
join of the transfers query. -/
def accountNumberOfId (db : Db) (id : String) : Option String :=
  (db.accounts.find? fun a => a.id = id).map fun a => a.account_number

/-- The transaction rows of the account mapped into combined records. -/
def txnRecords (db : Db) (accountNumber : String) : List CombinedRecord :=
  (sortByDesc (fun t => t.created_at)
      (db.transactions.filter fun t =>
        t.account_number = some accountNumber)).map fun t =>
    { id := t.id
      type := "transaction"
      transaction_type := some t.type
      amount := t.amount
      account_number := t.account_number
      balance_after := some t.balance_after
      description := some t.description
      from_account_number := none
      to_account_number := none
      notes := none
      reference_number := t.reference_number
      status := t.status
      created_at := t.created_at }

/-- The transfer rows in which the account is sender or receiver, mapped
into combined records (the date of a transfer record is its completion
time). -/
def transferRecords (db : Db) (accountId : String) : List CombinedRecord :=
  (sortByDesc (fun tr => tr.completed_at)
      (db.transfers.filter fun tr =>
        tr.from_account_id = accountId ∨ tr.to_account_id = accountId)).map
    fun tr =>
    { id := tr.id
      type := "transfer"
      transaction_type := none
      amount := tr.amount
      account_number := none
      balance_after := none
      description := none
      from_account_number := accountNumberOfId db tr.from_account_id
      to_account_number := accountNumberOfId db tr.to_account_id
      notes := tr.notes
      reference_number := some tr.reference_number
      status := tr.status
      created_at := tr.completed_at }

/-- The get-transactions handler.  The limit query parameter is modelled as
an optional natural number; an absent parameter defaults to 50. -/
def run (db : Db) (env : Env) (authHeader : Option String)
    (accountNumber : Option String) (limit : Option Nat) :
    Response × Db × List DbOp :=
  match authHeader with
  | none => (Response.err 401 "Missing authorization header", db, [])
  | some h =>
    match env.getUser (stripBearer h) with
    | none => (Response.err 401 "Unauthorized", db, [])
    | some uid =>
      let limitVal := limit.getD 50
      if ¬ truthy accountNumber then
        (Response.err 400 "Missing account_number parameter", db, [])
      else
        let n := accountNumber.getD ""
        match maybeSingle (db.accounts.filter fun a =>
            a.account_number = n ∧ a.user_id = uid) with
        | Except.error _ =>
          (Response.err 404 "Account not found or unauthorized", db,
            [DbOp.selectAccounts])
        | Except.ok none =>
          (Response.err 404 "Account not found or unauthorized", db,
            [DbOp.selectAccounts])
        | Except.ok (some account) =>
          let combined :=
            (sortByDesc (fun r => r.created_at)
              (txnRecords db n ++ transferRecords db account.id)).take
              limitVal
          (⟨200, none, combined⟩, db,
            [DbOp.selectAccounts, DbOp.selectTransactions,
              DbOp.selectTransfers])

end GetTransactions

/-! ## create-account (src/supabase/functions/create-account/index.ts) -/

namespace CreateAccount

/-- The request body of create-account. -/
structure CreateAccountRequest where
  account_type : String
  initial_deposit : Option ℤ
deriving DecidableEq, Repr

/-- The response of create-account. -/
structure Response where
  status : Nat
  error : Option String
  account : Option Account
deriving DecidableEq, Repr

/-- An error response of the handler. -/
def Response.err (status : Nat) (msg : String) : Response :=
  ⟨status, some msg, none⟩

/-- The create-account handler: authentication, account-type validation,
account-number generation, insertion of the account row, and, when the
initial deposit is positive, insertion of the initial-deposit transaction. -/
def run (db : Db) (env : Env) (authHeader : Option String)
    (req : CreateAccountRequest) : Response × Db × List DbOp :=
  match authHeader with
  | none => (Response.err 401 "Missing authorization header", db, [])
  | some h =>
    match env.getUser (stripBearer h) with
    | none => (Response.err 401 "Unauthorized", db, [])
    | some uid =>
      let initial_deposit := req.initial_deposit.getD 0
      if ¬ (req.account_type = "Current" ∨ req.account_type = "Savings" ∨
          req.account_type = "Credit") then
        (Response.err 400 "Invalid account type", db, [])
      else
        let account : Account :=
          { id := env.genId 0
            account_number := env.accountNumber
            user_id := uid
            account_type := req.account_type
            balance := initial_deposit
            currency := "BHD"
            status := "active"
            created_at := env.now }
        let db1 := { db with accounts := db.accounts ++ [account] }
        if initial_deposit > 0 then
          let txn : Txn :=
            { id := env.genId 1
              account_id := some account.id
              account_number := none
              type := "deposit"
              amount := initial_deposit
              balance_after := initial_deposit
              description := "Initial deposit"
              reference_number := some env.refNumber
              status := "completed"
              created_at := env.now }
          let db2 := { db1 with transactions := db1.transactions ++ [txn] }
          (⟨201, none, some account⟩, db2,
            [DbOp.rpcAccountNumber, DbOp.insertAccount, DbOp.rpcRef,
              DbOp.insertTransactions])
        else
          (⟨201, none, some account⟩, db1,
            [DbOp.rpcAccountNumber, DbOp.insertAccount])

end CreateAccount

/-! ## signup (src/supabase/functions/signup/index.ts) -/

namespace Signup

/-- The request body of signup. -/
structure SignupRequest where
  email : String
  password : String
  full_name : String
  phone : Option String
  date_of_birth : Option String
  address : Option String
deriving DecidableEq, Repr

/-- The response of signup. -/
structure Response where
  status : Nat
  error : Option String
  user_id : Option String
  profile : Option Profile
deriving DecidableEq, Repr

/-- An error response of the handler. -/
def Response.err (status : Nat) (msg : String) : Response :=
  ⟨status, some msg, none, none⟩

/-- The signup handler.  The Authorization header is taken as a parameter
to make its treatment visible: the handler never reads it.  It validates
the body, calls auth.signUp on the identity provider, and inserts the
profile row with the admin client. -/
def run (db : Db) (env : Env) (_authHeader : Option String)
    (req : SignupRequest) : Response × Db × List DbOp :=
  if req.email = "" ∨ req.password = "" ∨ req.full_name = "" then
    (Response.err 400 "Email, password, and full name are required", db, [])
  else
    match env.signUpResult with
    | none => (Response.err 400 "signup error", db, [])
    | some uid =>
      let profile : Profile :=
        { id := uid
          full_name := req.full_name
          phone := req.phone
          date_of_birth := req.date_of_birth
          address := req.address
          created_at := env.now
          updated_at := env.now }
      let db1 := { db with profiles := db.profiles ++ [profile] }
      (⟨201, none, some uid, some profile⟩, db1, [DbOp.insertProfile])

end Signup

/-! ## Sequential server runs (statelessness) -/

/-- One request to the create-transaction-or-transfer service: its
environment, Authorization header and body. -/
structure ServeInput where
  env : Env
  authHeader : Option String
  body : TxnOrTransfer.RequestBody

/-- One step of the service: the response with its operation trace, and the
database afterwards. -/
def serveStep (r : ServeInput) (db : Db) :
    (TxnOrTransfer.Response × List DbOp) × Db :=
  let out := TxnOrTransfer.run db r.env r.authHeader r.body
  ((out.1, out.2.2), out.2.1)

/-- A sequential run of the service over a list of requests, threading the
database: the handler itself holds no state between requests. -/
def serverRun (db : Db) : List ServeInput →
    List (TxnOrTransfer.Response × List DbOp) × Db
  | [] => ([], db)
  | r :: rs =>
    let s := serveStep r db
    let rest := serverRun s.2 rs
    (s.1 :: rest.1, rest.2)

/-! ## Concrete fixtures for the witnesses and counterexamples -/

/-- An environment in which every token authenticates as user u1 and every
write succeeds. -/
def exEnv : Env :=
  { getUser := fun _ => some "u1"
    userEmail := "u1@example.com"
    refNumber := "REF1"
    accountNumber := "ACC9"
    genId := fun n => "id" ++ toString n
    now := 100
    signUpResult := some "nu"
    failUpdateFrom := false
    failUpdateTo := false
    failRollback := false
    failInsertTransfer := false
    failInsertTxns := false
    failUpdateBalance := false }

/-- An environment in which the identity provider rejects every token. -/
def exEnvReject : Env :=
  { exEnv with getUser := fun _ => none }

/-- An account of user u1 with balance 100. -/
def exA : Account :=
  { id := "a1", account_number := "N1", user_id := "u1"
    account_type := "Current", balance := 100, currency := "BHD"
    status := "active", created_at := 1 }

/-- An account of user u2 with balance 50. -/
def exB : Account :=
  { id := "a2", account_number := "N2", user_id := "u2"
    account_type := "Current", balance := 50, currency := "BHD"
    status := "active", created_at := 2 }

/-- A store holding the two accounts and nothing else. -/
def exDb : Db :=
  { accounts := [exA, exB], transactions := [], transfers := []
    profiles := [] }

/-! ## Helper lemmas about the query and update primitives -/

theorem single_eq_ok {α : Type} {l : List α} {a : α}
    (h : single l = Except.ok a) : l = [a] := by
  rcases l with _ | ⟨x, _ | ⟨y, t⟩⟩ <;> simp_all [single]

theorem maybeSingle_eq_ok_some {α : Type} {l : List α} {a : α}
    (h : maybeSingle l = Except.ok (some a)) : l = [a] := by
  rcases l with _ | ⟨x, _ | ⟨y, t⟩⟩ <;> simp_all [maybeSingle]

theorem mem_of_filter_eq_singleton {α : Type} {l : List α} {p : α → Bool}
    {a : α} (h : l.filter p = [a]) : a ∈ l ∧ p a = true := by
  have : a ∈ l.filter p := by rw [h]; exact List.mem_singleton_self a
  exact ⟨List.mem_of_mem_filter this, List.of_mem_filter this⟩

theorem updateBalanceById_cons (hd : Account) (tl : List Account)
    (t : String) (b : ℤ) :
    updateBalanceById (hd :: tl) t b =
      (if hd.id = t then { hd with balance := b } else hd) ::
        updateBalanceById tl t b := rfl

theorem filter_id_updateBalanceById_ne {s t : String} (l : List Account)
    (b : ℤ) (h : s ≠ t) :
    (updateBalanceById l t b).filter (fun a => a.id = s) =
      l.filter (fun a => a.id = s) := by
  induction l with
  | nil => rfl
  | cons hd tl ih =>
    rw [updateBalanceById_cons]
    by_cases hid : hd.id = t
    · rw [if_pos hid, List.filter_cons, List.filter_cons]
      have hs : ¬ hd.id = s := fun e => h (e.symm.trans hid)
      rw [if_neg (by simpa using hs), if_neg (by simpa using hs)]
      exact ih
    · rw [if_neg hid, List.filter_cons, List.filter_cons]
      by_cases hs : hd.id = s
      · rw [if_pos (by simpa using hs), if_pos (by simpa using hs), ih]
      · rw [if_neg (by simpa using hs), if_neg (by simpa using hs)]
        exact ih

theorem filter_id_updateBalanceById_self (l : List Account) (t : String)
    (b : ℤ) :
    (updateBalanceById l t b).filter (fun a => a.id = t) =
      (l.filter (fun a => a.id = t)).map
        (fun a => { a with balance := b }) := by
  induction l with
  | nil => rfl
  | cons hd tl ih =>
    rw [updateBalanceById_cons]
    by_cases hid : hd.id = t
    · rw [if_pos hid, List.filter_cons, List.filter_cons,
        if_pos (show decide (({ hd with balance := b } : Account).id = t) =
          true by simpa using hid),
        if_pos (by simpa using hid), List.map_cons, ih]
    · rw [if_neg hid, List.filter_cons, List.filter_cons,
        if_neg (by simpa using hid), if_neg (by simpa using hid)]
      exact ih

theorem sum_balance_updateBalanceById (l : List Account) (t : String)
    (b : ℤ) :
    ((updateBalanceById l t b).map fun a => a.balance).sum =
      (l.map fun a => a.balance).sum +
        ((l.filter fun a => a.id = t).map fun a => b - a.balance).sum := by
  induction l with
  | nil => rfl
  | cons hd tl ih =>
    rw [updateBalanceById_cons]
    by_cases hid : hd.id = t
    · rw [if_pos hid, List.map_cons, List.sum_cons, List.filter_cons,
        if_pos (by simpa using hid), List.map_cons, List.sum_cons,
        List.map_cons, List.sum_cons, ih]
      dsimp only
      ring
    · rw [if_neg hid, List.map_cons, List.sum_cons, List.filter_cons,
        if_neg (by simpa using hid), List.map_cons, List.sum_cons, ih]
      ring

theorem mem_updateBalanceById_of_ne {l : List Account} {t : String} {b : ℤ}
    {a : Account} (ha : a ∈ l) (h : a.id ≠ t) :
    a ∈ updateBalanceById l t b :=
  List.mem_map.mpr ⟨a, ha, by simp [h]⟩

theorem filter_id_of_pairwise {l : List Account}
    (h : l.Pairwise fun a b => a.id ≠ b.id ∧ a.account_number ≠ b.account_number)
    {a : Account} (ha : a ∈ l) :
    l.filter (fun x => x.id = a.id) = [a] := by
  induction l with
  | nil => cases ha
  | cons hd tl ih =>
    rcases List.pairwise_cons.mp h with ⟨hrel, htl⟩
    rcases List.mem_cons.mp ha with heq | hmem
    · subst heq
      have hnil : tl.filter (fun x => x.id = a.id) = [] := by
        rw [List.filter_eq_nil_iff]
        intro x hx
        simpa using fun e => (hrel x hx).1 e.symm
      simp [List.filter_cons, hnil]
    · have hne : hd.id ≠ a.id := (hrel a hmem).1
      simp [List.filter_cons, hne, ih htl hmem]

/-- In a well-formed store the row of an id is unique. -/
theorem WellFormed.filter_id {db : Db} (wf : WellFormed db) {a : Account}
    (ha : a ∈ db.accounts) :
    db.accounts.filter (fun x => x.id = a.id) = [a] :=
  filter_id_of_pairwise wf ha

/-! ## Success-path equations of the two transfer handlers -/

/-- The create-transfer handler on the path where every guard passes and
every write succeeds: the exact response, store and trace. -/
theorem createTransfer_run_success
    {db : Db} {env : Env} {h uid : String}
    {req : CreateTransfer.TransferRequest} {fromAccount toAccount : Account}
    (hu : env.getUser (stripBearer h) = some uid)
    (hamt : ¬ req.amount ≤ 0)
    (hfrom : single (db.accounts.filter (CreateTransfer.fromFilter req uid)) =
      Except.ok fromAccount)
    (hbal : ¬ fromAccount.balance < req.amount)
    (hto : single (db.accounts.filter (CreateTransfer.toFilter req)) =
      Except.ok toAccount)
    (hne : ¬ fromAccount.id = toAccount.id)
    (h1 : env.failUpdateFrom = false) (h2 : env.failUpdateTo = false)
    (h3 : env.failInsertTransfer = false) (h4 : env.failInsertTxns = false) :
    CreateTransfer.run db env (some h) req =
      (⟨200, none,
          some ⟨env.genId 0, fromAccount.id, toAccount.id, req.amount,
            env.refNumber, req.notes, "completed", env.now⟩,
          some env.refNumber⟩,
        { db with
          accounts := updateBalanceById
            (updateBalanceById db.accounts fromAccount.id
              (fromAccount.balance - req.amount))
            toAccount.id (toAccount.balance + req.amount)
          transfers := db.transfers ++
            [⟨env.genId 0, fromAccount.id, toAccount.id, req.amount,
              env.refNumber, req.notes, "completed", env.now⟩]
          transactions := db.transactions ++
            [⟨env.genId 1, some fromAccount.id, none, "transfer",
              -req.amount, fromAccount.balance - req.amount,
              "Transfer to " ++ req.to_account_number, some env.refNumber,
              "completed", env.now⟩,
             ⟨env.genId 2, some toAccount.id, none, "transfer",
              req.amount, toAccount.balance + req.amount,
              "Transfer from " ++ fromAccount.account_number,
              some env.refNumber, "completed", env.now⟩] },
        [DbOp.selectAccounts, DbOp.selectAccounts, DbOp.rpcRef,
          DbOp.updateAccount fromAccount.id, DbOp.updateAccount toAccount.id,
          DbOp.insertTransfer, DbOp.insertTransactions]) := by
  simp only [CreateTransfer.run, hu, hfrom, hto, h1, h2, h3, h4,
    if_neg hamt, if_neg hbal, if_neg hne]
  rfl

/-- handleTransfer on the path where every guard passes and every write
succeeds: the exact response, store and trace. -/
theorem handleTransfer_run_success
    {db : Db} {env : Env} {uid : String}
    {req : TxnOrTransfer.TransferRequest} {fromAccount toAccount : Account}
    (hamt : ¬ req.amount ≤ 0)
    (hfrom : maybeSingle
        (db.accounts.filter (TxnOrTransfer.fromFilter req uid)) =
      Except.ok (some fromAccount))
    (hbal : ¬ fromAccount.balance < req.amount)
    (hto : maybeSingle (db.accounts.filter (TxnOrTransfer.toFilter req)) =
      Except.ok (some toAccount))
    (h1 : env.failUpdateFrom = false) (h2 : env.failUpdateTo = false)
    (h3 : env.failInsertTransfer = false) (h4 : env.failInsertTxns = false) :
    TxnOrTransfer.handleTransfer db env uid req =
      (⟨201, none, none,
          some ⟨env.genId 0, fromAccount.id, toAccount.id, req.amount,
            env.refNumber, req.notes, "completed", env.now⟩,
          some env.refNumber⟩,
        { db with
          accounts := updateBalanceById
            (updateBalanceById db.accounts fromAccount.id
              (fromAccount.balance - req.amount))
            toAccount.id (toAccount.balance + req.amount)
          transfers := db.transfers ++
            [⟨env.genId 0, fromAccount.id, toAccount.id, req.amount,
              env.refNumber, req.notes, "completed", env.now⟩]
          transactions := db.transactions ++
            [⟨env.genId 1, none, some fromAccount.account_number, "transfer",
              req.amount, fromAccount.balance - req.amount,
              "Transfer to " ++ req.to_account_number, some env.refNumber,
              "completed", env.now⟩,
             ⟨env.genId 2, none, some toAccount.account_number, "transfer",
              req.amount, toAccount.balance + req.amount,
              "Transfer from " ++ req.from_account_number,
              some env.refNumber, "completed", env.now⟩] },
        [DbOp.selectAccounts, DbOp.selectAccounts, DbOp.rpcRef,
          DbOp.updateAccount fromAccount.id, DbOp.updateAccount toAccount.id,
          DbOp.insertTransfer, DbOp.insertTransactions]) := by
  simp only [TxnOrTransfer.handleTransfer, hfrom, hto, h1, h2, h3, h4,
    if_neg hamt, if_neg hbal]
  rfl

/-- Observable effect of the dual balance update on a store with pairwise
distinct ids: the source row keeps id and loses amt, the destination row
keeps id and gains amt, untouched rows survive unchanged, and the total
balance is conserved. -/
theorem double_update_post {l : List Account}
    (hpw : l.Pairwise fun a b =>
      a.id ≠ b.id ∧ a.account_number ≠ b.account_number)
    {fromAccount toAccount : Account}
    (hfmem : fromAccount ∈ l) (htmem : toAccount ∈ l)
    (hne : fromAccount.id ≠ toAccount.id) (amt : ℤ) :
    (((updateBalanceById (updateBalanceById l fromAccount.id
          (fromAccount.balance - amt)) toAccount.id
          (toAccount.balance + amt)).filter
        (fun a => a.id = fromAccount.id)).map fun a => a.balance) =
      [fromAccount.balance - amt] ∧
    (((updateBalanceById (updateBalanceById l fromAccount.id
          (fromAccount.balance - amt)) toAccount.id
          (toAccount.balance + amt)).filter
        (fun a => a.id = toAccount.id)).map fun a => a.balance) =
      [toAccount.balance + amt] ∧
    (∀ a ∈ l, a.id ≠ fromAccount.id → a.id ≠ toAccount.id →
      a ∈ updateBalanceById (updateBalanceById l fromAccount.id
        (fromAccount.balance - amt)) toAccount.id
        (toAccount.balance + amt)) ∧
    ((updateBalanceById (updateBalanceById l fromAccount.id
        (fromAccount.balance - amt)) toAccount.id
        (toAccount.balance + amt)).map fun a => a.balance).sum =
      (l.map fun a => a.balance).sum := by
  have hf : l.filter (fun x => x.id = fromAccount.id) = [fromAccount] :=
    filter_id_of_pairwise hpw hfmem
  have ht : l.filter (fun x => x.id = toAccount.id) = [toAccount] :=
    filter_id_of_pairwise hpw htmem
  have hinner_t :
      (updateBalanceById l fromAccount.id
          (fromAccount.balance - amt)).filter
        (fun a => a.id = toAccount.id) = [toAccount] := by
    rw [filter_id_updateBalanceById_ne _ _ (Ne.symm hne), ht]
  refine ⟨?_, ?_, ?_, ?_⟩
  · rw [filter_id_updateBalanceById_ne _ _ hne,
      filter_id_updateBalanceById_self, hf]
    rfl
  · rw [filter_id_updateBalanceById_self, hinner_t]
    rfl
  · intro a ha haf hat
    exact mem_updateBalanceById_of_ne
      (mem_updateBalanceById_of_ne ha haf) hat
  · rw [sum_balance_updateBalanceById, hinner_t,
      sum_balance_updateBalanceById, hf]
    simp

/-! ## C1: balance conservation of successful transfers -/

/-- C1, counterexample: the create-transaction-or-transfer handler accepts a
transfer whose source and destination are the same account (it has no
same-account guard).  The request completes successfully with status 201,
yet the balance of the one involved account rises from 100 to 130 and the
total balance of the store rises from 150 to 180 — the source account does
not decrease by the amount and the sum is not preserved, refuting the claim
as stated. -/
theorem C1_counterexample :
    (TxnOrTransfer.run exDb exEnv (some "x")
        (TxnOrTransfer.RequestBody.transfer ⟨"N1", "N1", 30, none⟩)).1.status
      = 201 ∧
    ((TxnOrTransfer.run exDb exEnv (some "x")
        (TxnOrTransfer.RequestBody.transfer ⟨"N1", "N1", 30, none⟩)).2.1.accounts.map
      fun a => a.balance) = [130, 50] ∧
    (exDb.accounts.map fun a => a.balance).sum = 150 ∧
    (((TxnOrTransfer.run exDb exEnv (some "x")
        (TxnOrTransfer.RequestBody.transfer ⟨"N1", "N1", 30, none⟩)).2.1.accounts.map
      fun a => a.balance).sum) = 180 := by
  refine ⟨rfl, by decide, by decide, by decide⟩

/-- C1 (amended): for every transfer request that completes successfully
through either transfer handler, provided the source and destination are
distinct account rows and every issued database write succeeds, the source
balance decreases by exactly the requested amount, the destination balance
increases by exactly the requested amount, every untouched account row
survives unchanged, and the total balance of the store is conserved.  (The
create-transfer handler rejects same-account transfers; the
create-transaction-or-transfer handler accepts them and then increases the
single account balance by the amount, as the counterexample shows.) -/
theorem C1_theorem :
    (∀ (db : Db) (env : Env) (h uid : String)
      (req : CreateTransfer.TransferRequest)
      (fromAccount toAccount : Account),
      WellFormed db →
      env.getUser (stripBearer h) = some uid →
      ¬ req.amount ≤ 0 →
      single (db.accounts.filter (CreateTransfer.fromFilter req uid)) =
        Except.ok fromAccount →
      ¬ fromAccount.balance < req.amount →
      single (db.accounts.filter (CreateTransfer.toFilter req)) =
        Except.ok toAccount →
      fromAccount.id ≠ toAccount.id →
      env.failUpdateFrom = false → env.failUpdateTo = false →
      env.failInsertTransfer = false → env.failInsertTxns = false →
      (CreateTransfer.run db env (some h) req).1.status = 200 ∧
      (((CreateTransfer.run db env (some h) req).2.1.accounts.filter
          (fun a => a.id = fromAccount.id)).map fun a => a.balance) =
        [fromAccount.balance - req.amount] ∧
      (((CreateTransfer.run db env (some h) req).2.1.accounts.filter
          (fun a => a.id = toAccount.id)).map fun a => a.balance) =
        [toAccount.balance + req.amount] ∧
      (∀ a ∈ db.accounts, a.id ≠ fromAccount.id → a.id ≠ toAccount.id →
        a ∈ (CreateTransfer.run db env (some h) req).2.1.accounts) ∧
      ((CreateTransfer.run db env (some h) req).2.1.accounts.map
          fun a => a.balance).sum =
        (db.accounts.map fun a => a.balance).sum) ∧
    (∀ (db : Db) (env : Env) (h uid : String)
      (req : TxnOrTransfer.TransferRequest)
      (fromAccount toAccount : Account),
      WellFormed db →
      env.getUser (stripBearer h) = some uid →
      ¬ req.amount ≤ 0 →
      maybeSingle (db.accounts.filter (TxnOrTransfer.fromFilter req uid)) =
        Except.ok (some fromAccount) →
      ¬ fromAccount.balance < req.amount →
      maybeSingle (db.accounts.filter (TxnOrTransfer.toFilter req)) =
        Except.ok (some toAccount) →
      fromAccount.id ≠ toAccount.id →
      env.failUpdateFrom = false → env.failUpdateTo = false →
      env.failInsertTransfer = false → env.failInsertTxns = false →
      (TxnOrTransfer.run db env (some h)
        (TxnOrTransfer.RequestBody.transfer req)).1.status = 201 ∧
      (((TxnOrTransfer.run db env (some h)
          (TxnOrTransfer.RequestBody.transfer req)).2.1.accounts.filter
          (fun a => a.id = fromAccount.id)).map fun a => a.balance) =
        [fromAccount.balance - req.amount] ∧
      (((TxnOrTransfer.run db env (some h)
          (TxnOrTransfer.RequestBody.transfer req)).2.1.accounts.filter
          (fun a => a.id = toAccount.id)).map fun a => a.balance) =
        [toAccount.balance + req.amount] ∧
      (∀ a ∈ db.accounts, a.id ≠ fromAccount.id → a.id ≠ toAccount.id →
        a ∈ (TxnOrTransfer.run db env (some h)
          (TxnOrTransfer.RequestBody.transfer req)).2.1.accounts) ∧
      ((TxnOrTransfer.run db env (some h)
          (TxnOrTransfer.RequestBody.transfer req)).2.1.accounts.map
          fun a => a.balance).sum =
        (db.accounts.map fun a => a.balance).sum) := by
  constructor
  · intro db env h uid req fromAccount toAccount wf hu hamt hfrom hbal hto
      hne h1 h2 h3 h4
    rw [createTransfer_run_success hu hamt hfrom hbal hto hne h1 h2 h3 h4]
    have hfmem := (mem_of_filter_eq_singleton (single_eq_ok hfrom)).1
    have htmem := (mem_of_filter_eq_singleton (single_eq_ok hto)).1
    obtain ⟨p1, p2, p3, p4⟩ :=
      double_update_post wf hfmem htmem hne req.amount
    exact ⟨rfl, p1, p2, p3, p4⟩
  · intro db env h uid req fromAccount toAccount wf hu hamt hfrom hbal hto
      hne h1 h2 h3 h4
    have hrun : TxnOrTransfer.run db env (some h)
        (TxnOrTransfer.RequestBody.transfer req) =
        TxnOrTransfer.handleTransfer db env uid req := by
      simp only [TxnOrTransfer.run, hu]
    rw [hrun, handleTransfer_run_success hamt hfrom hbal hto h1 h2 h3 h4]
    have hfmem := (mem_of_filter_eq_singleton (maybeSingle_eq_ok_some hfrom)).1
    have htmem := (mem_of_filter_eq_singleton (maybeSingle_eq_ok_some hto)).1
    obtain ⟨p1, p2, p3, p4⟩ :=
      double_update_post wf hfmem htmem hne req.amount
    exact ⟨rfl, p1, p2, p3, p4⟩

/-- C1, witness: the amended theorem applied to the concrete two-account
store, once per handler, with every hypothesis discharged by computation:
both transfers of 30 conserve the total balance 150. -/
theorem C1_witness :
    WellFormed exDb ∧
    ((CreateTransfer.run exDb exEnv (some "x")
        ⟨"a1", "N2", 30, none⟩).2.1.accounts.map fun a => a.balance).sum =
      (exDb.accounts.map fun a => a.balance).sum ∧
    ((TxnOrTransfer.run exDb exEnv (some "x")
        (TxnOrTransfer.RequestBody.transfer
          ⟨"N1", "N2", 30, none⟩)).2.1.accounts.map
        fun a => a.balance).sum =
      (exDb.accounts.map fun a => a.balance).sum := by
  refine ⟨by decide, ?_, ?_⟩
  · exact (C1_theorem.1 exDb exEnv "x" "u1" ⟨"a1", "N2", 30, none⟩ exA exB
      (by decide) (by decide) (by decide) rfl (by decide) rfl
      (by decide) rfl rfl rfl rfl).2.2.2.2
  · exact (C1_theorem.2 exDb exEnv "x" "u1" ⟨"N1", "N2", 30, none⟩ exA exB
      (by decide) (by decide) (by decide) rfl (by decide) rfl
      (by decide) rfl rfl rfl rfl).2.2.2.2

/-! ## C2: double-entry transaction records of successful transfers -/

/-- C2, counterexample: a successful transfer of 30 through the
create-transaction-or-transfer handler creates two transaction records, but
the entry on the source account carries the positive amount 30, not the
negation -30, so the two entry amounts sum to 60 rather than zero.  The
source comments this deliberately: transaction logs carry no negative
amount. -/
theorem C2_counterexample :
    (TxnOrTransfer.run exDb exEnv (some "x")
        (TxnOrTransfer.RequestBody.transfer ⟨"N1", "N2", 30, none⟩)).1.status
      = 201 ∧
    ((TxnOrTransfer.run exDb exEnv (some "x")
        (TxnOrTransfer.RequestBody.transfer ⟨"N1", "N2", 30, none⟩)).2.1.transactions.map
      fun t => t.amount) = [30, 30] ∧
    ¬ ((TxnOrTransfer.run exDb exEnv (some "x")
        (TxnOrTransfer.RequestBody.transfer ⟨"N1", "N2", 30, none⟩)).2.1.transactions.map
      fun t => t.amount) = [-30, 30] := by
  refine ⟨rfl, by decide, by decide⟩

/-- C2 (amended): every transfer that completes successfully with all
writes succeeding creates exactly two transaction records sharing the
reference number of the transfer, one for the source carrying the new
source balance and one for the destination carrying the new destination
balance.  In the create-transfer handler the source entry records the
negation of the amount and the destination entry the amount, summing to
zero; in the create-transaction-or-transfer handler both entries record
the positive amount, summing to twice the amount. -/
theorem C2_theorem :
    (∀ (db : Db) (env : Env) (h uid : String)
      (req : CreateTransfer.TransferRequest)
      (fromAccount toAccount : Account),
      env.getUser (stripBearer h) = some uid →
      ¬ req.amount ≤ 0 →
      single (db.accounts.filter (CreateTransfer.fromFilter req uid)) =
        Except.ok fromAccount →
      ¬ fromAccount.balance < req.amount →
      single (db.accounts.filter (CreateTransfer.toFilter req)) =
        Except.ok toAccount →
      fromAccount.id ≠ toAccount.id →
      env.failUpdateFrom = false → env.failUpdateTo = false →
      env.failInsertTransfer = false → env.failInsertTxns = false →
      (CreateTransfer.run db env (some h) req).1.status = 200 ∧
      ∃ debit credit : Txn,
        (CreateTransfer.run db env (some h) req).2.1.transactions =
          db.transactions ++ [debit, credit] ∧
        debit.account_id = some fromAccount.id ∧
        debit.amount = -req.amount ∧
        debit.balance_after = fromAccount.balance - req.amount ∧
        credit.account_id = some toAccount.id ∧
        credit.amount = req.amount ∧
        credit.balance_after = toAccount.balance + req.amount ∧
        debit.reference_number = some env.refNumber ∧
        credit.reference_number = some env.refNumber ∧
        debit.amount + credit.amount = 0) ∧
    (∀ (db : Db) (env : Env) (h uid : String)
      (req : TxnOrTransfer.TransferRequest)
      (fromAccount toAccount : Account),
      env.getUser (stripBearer h) = some uid →
      ¬ req.amount ≤ 0 →
      maybeSingle (db.accounts.filter (TxnOrTransfer.fromFilter req uid)) =
        Except.ok (some fromAccount) →
      ¬ fromAccount.balance < req.amount →
      maybeSingle (db.accounts.filter (TxnOrTransfer.toFilter req)) =
        Except.ok (some toAccount) →
      env.failUpdateFrom = false → env.failUpdateTo = false →
      env.failInsertTransfer = false → env.failInsertTxns = false →
      (TxnOrTransfer.run db env (some h)
        (TxnOrTransfer.RequestBody.transfer req)).1.status = 201 ∧
      ∃ t1 t2 : Txn,
        (TxnOrTransfer.run db env (some h)
          (TxnOrTransfer.RequestBody.transfer req)).2.1.transactions =
          db.transactions ++ [t1, t2] ∧
        t1.account_number = some fromAccount.account_number ∧
        t1.amount = req.amount ∧
        t1.balance_after = fromAccount.balance - req.amount ∧
        t2.account_number = some toAccount.account_number ∧
        t2.amount = req.amount ∧
        t2.balance_after = toAccount.balance + req.amount ∧
        t1.reference_number = some env.refNumber ∧
        t2.reference_number = some env.refNumber ∧
        t1.amount + t2.amount = 2 * req.amount) := by
  constructor
  · intro db env h uid req fromAccount toAccount hu hamt hfrom hbal hto
      hne h1 h2 h3 h4
    rw [createTransfer_run_success hu hamt hfrom hbal hto hne h1 h2 h3 h4]
    exact ⟨rfl, _, _, rfl, rfl, rfl, rfl, rfl, rfl, rfl, rfl, rfl,
      by ring⟩
  · intro db env h uid req fromAccount toAccount hu hamt hfrom hbal hto
      h1 h2 h3 h4
    have hrun : TxnOrTransfer.run db env (some h)
        (TxnOrTransfer.RequestBody.transfer req) =
        TxnOrTransfer.handleTransfer db env uid req := by
      simp only [TxnOrTransfer.run, hu]
    rw [hrun, handleTransfer_run_success hamt hfrom hbal hto h1 h2 h3 h4]
    exact ⟨rfl, _, _, rfl, rfl, rfl, rfl, rfl, rfl, rfl, rfl, rfl,
      by ring⟩

/-- C2, witness: the amended theorem applied to the concrete two-account
store for both handlers. -/
theorem C2_witness :
    (CreateTransfer.run exDb exEnv (some "x")
      ⟨"a1", "N2", 30, none⟩).1.status = 200 ∧
    (∃ debit credit : Txn,
      (CreateTransfer.run exDb exEnv (some "x")
        ⟨"a1", "N2", 30, none⟩).2.1.transactions =
        exDb.transactions ++ [debit, credit] ∧
      debit.account_id = some exA.id ∧
      debit.amount = -(30 : ℤ) ∧
      debit.balance_after = exA.balance - 30 ∧
      credit.account_id = some exB.id ∧
      credit.amount = (30 : ℤ) ∧
      credit.balance_after = exB.balance + 30 ∧
      debit.reference_number = some exEnv.refNumber ∧
      credit.reference_number = some exEnv.refNumber ∧
      debit.amount + credit.amount = 0) ∧
    (TxnOrTransfer.run exDb exEnv (some "x")
      (TxnOrTransfer.RequestBody.transfer ⟨"N1", "N2", 30, none⟩)).1.status
      = 201 := by
  obtain ⟨hs, hrest⟩ := C2_theorem.1 exDb exEnv "x" "u1"
    ⟨"a1", "N2", 30, none⟩ exA exB (by decide) (by decide) rfl (by decide)
    rfl (by decide) rfl rfl rfl rfl
  obtain ⟨hs2, _⟩ := C2_theorem.2 exDb exEnv "x" "u1"
    ⟨"N1", "N2", 30, none⟩ exA exB (by decide) (by decide) rfl (by decide)
    rfl rfl rfl rfl rfl
  exact ⟨hs, hrest, hs2⟩

/-! ## C3: the insufficient-funds guard -/

/-- C3: in each of the three money-moving paths — the create-transfer
handler, and the withdrawal and transfer branches of
create-transaction-or-transfer — a request that reaches the balance check
(authenticated, positive amount, source account found, active and owned by
the caller) whose source balance is strictly below the requested amount
yields exactly the 400 response with error Insufficient funds, the store
unchanged, and a trace containing only the account read. -/
theorem C3_theorem :
    (∀ (db : Db) (env : Env) (h uid : String)
      (req : CreateTransfer.TransferRequest) (fromAccount : Account),
      env.getUser (stripBearer h) = some uid →
      ¬ req.amount ≤ 0 →
      single (db.accounts.filter (CreateTransfer.fromFilter req uid)) =
        Except.ok fromAccount →
      fromAccount.balance < req.amount →
      CreateTransfer.run db env (some h) req =
        (CreateTransfer.Response.err 400 "Insufficient funds", db,
          [DbOp.selectAccounts])) ∧
    (∀ (db : Db) (env : Env) (h uid : String)
      (req : TxnOrTransfer.TransactionRequest) (account : Account),
      env.getUser (stripBearer h) = some uid →
      ¬ req.amount ≤ 0 →
      maybeSingle (db.accounts.filter (TxnOrTransfer.accountFilter req uid)) =
        Except.ok (some account) →
      req.type = "withdrawal" →
      account.balance < req.amount →
      TxnOrTransfer.run db env (some h) (TxnOrTransfer.RequestBody.txn req) =
        (TxnOrTransfer.Response.err 400 "Insufficient funds", db,
          [DbOp.selectAccounts])) ∧
    (∀ (db : Db) (env : Env) (h uid : String)
      (req : TxnOrTransfer.TransferRequest) (fromAccount : Account),
      env.getUser (stripBearer h) = some uid →
      ¬ req.amount ≤ 0 →
      maybeSingle (db.accounts.filter (TxnOrTransfer.fromFilter req uid)) =
        Except.ok (some fromAccount) →
      fromAccount.balance < req.amount →
      TxnOrTransfer.run db env (some h)
          (TxnOrTransfer.RequestBody.transfer req) =
        (TxnOrTransfer.Response.err 400 "Insufficient funds", db,
          [DbOp.selectAccounts])) := by
  refine ⟨?_, ?_, ?_⟩
  · intro db env h uid req fromAccount hu hamt hfrom hbal
    simp only [CreateTransfer.run, hu, hfrom, if_neg hamt, if_pos hbal]
  · intro db env h uid req account hu hamt hacct htype hbal
    simp only [TxnOrTransfer.run, hu, TxnOrTransfer.handleTransaction,
      hacct, if_neg hamt, if_pos (And.intro htype hbal)]
  · intro db env h uid req fromAccount hu hamt hfrom hbal
    simp only [TxnOrTransfer.run, hu, TxnOrTransfer.handleTransfer,
      hfrom, if_neg hamt, if_pos hbal]

/-- C3, witness: requesting 1000 from the account holding 100 on each of
the three paths returns Insufficient funds and leaves the store intact. -/
theorem C3_witness :
    CreateTransfer.run exDb exEnv (some "x") ⟨"a1", "N2", 1000, none⟩ =
      (CreateTransfer.Response.err 400 "Insufficient funds", exDb,
        [DbOp.selectAccounts]) ∧
    TxnOrTransfer.run exDb exEnv (some "x")
        (TxnOrTransfer.RequestBody.txn
          ⟨"N1", "withdrawal", 1000, none, none⟩) =
      (TxnOrTransfer.Response.err 400 "Insufficient funds", exDb,
        [DbOp.selectAccounts]) ∧
    TxnOrTransfer.run exDb exEnv (some "x")
        (TxnOrTransfer.RequestBody.transfer ⟨"N1", "N2", 1000, none⟩) =
      (TxnOrTransfer.Response.err 400 "Insufficient funds", exDb,
        [DbOp.selectAccounts]) := by
  refine ⟨?_, ?_, ?_⟩
  · exact C3_theorem.1 exDb exEnv "x" "u1" ⟨"a1", "N2", 1000, none⟩ exA
      (by decide) (by decide) rfl (by decide)
  · exact C3_theorem.2.1 exDb exEnv "x" "u1"
      ⟨"N1", "withdrawal", 1000, none, none⟩ exA
      (by decide) (by decide) rfl (by decide) (by decide)
  · exact C3_theorem.2.2 exDb exEnv "x" "u1" ⟨"N1", "N2", 1000, none⟩ exA
      (by decide) (by decide) rfl (by decide)

/-! ## C4: behaviour on a failing destination update -/

theorem updateBalanceById_of_forall_ne {l : List Account} {t : String}
    (h : ∀ x ∈ l, ¬ x.id = t) (b : ℤ) : updateBalanceById l t b = l := by
  induction l with
  | nil => rfl
  | cons hd tl ih =>
    rw [updateBalanceById_cons, if_neg (h hd (List.mem_cons_self hd tl)),
      ih fun x hx => h x (List.mem_cons_of_mem hd hx)]

/-- Writing back the original balance of a row undoes its update. -/
theorem updateBalanceById_restore {l : List Account}
    (hpw : l.Pairwise fun a b =>
      a.id ≠ b.id ∧ a.account_number ≠ b.account_number)
    {a : Account} (ha : a ∈ l) (b : ℤ) :
    updateBalanceById (updateBalanceById l a.id b) a.id a.balance = l := by
  induction l with
  | nil => cases ha
  | cons hd tl ih =>
    rcases List.pairwise_cons.mp hpw with ⟨hrel, htl⟩
    rcases List.mem_cons.mp ha with heq | hmem
    · subst heq
      have hnone : ∀ x ∈ tl, ¬ x.id = a.id := fun x hx e =>
        (hrel x hx).1 e.symm
      rw [updateBalanceById_cons, if_pos rfl, updateBalanceById_of_forall_ne hnone,
        updateBalanceById_cons, if_pos rfl, updateBalanceById_of_forall_ne hnone]
    · have hne : ¬ hd.id = a.id := (hrel a hmem).1
      rw [updateBalanceById_cons, if_neg hne, updateBalanceById_cons,
        if_neg hne, ih htl hmem]

/-- The create-transfer handler on the path where the destination update
fails and the rollback write succeeds. -/
theorem createTransfer_run_rollback
    {db : Db} {env : Env} {h uid : String}
    {req : CreateTransfer.TransferRequest} {fromAccount toAccount : Account}
    (hu : env.getUser (stripBearer h) = some uid)
    (hamt : ¬ req.amount ≤ 0)
    (hfrom : single (db.accounts.filter (CreateTransfer.fromFilter req uid)) =
      Except.ok fromAccount)
    (hbal : ¬ fromAccount.balance < req.amount)
    (hto : single (db.accounts.filter (CreateTransfer.toFilter req)) =
      Except.ok toAccount)
    (hne : ¬ fromAccount.id = toAccount.id)
    (h1 : env.failUpdateFrom = false) (h2 : env.failUpdateTo = true)
    (h3 : env.failRollback = false) :
    CreateTransfer.run db env (some h) req =
      (CreateTransfer.Response.err 500 "database error",
        { db with accounts :=
            (updateBalanceById
              (updateBalanceById db.accounts fromAccount.id
                (fromAccount.balance - req.amount))
              fromAccount.id fromAccount.balance) },
        [DbOp.selectAccounts, DbOp.selectAccounts, DbOp.rpcRef,
          DbOp.updateAccount fromAccount.id, DbOp.updateAccount toAccount.id,
          DbOp.updateAccount fromAccount.id]) := by
  simp only [CreateTransfer.run, hu, hfrom, hto, h1, h2, h3,
    if_neg hamt, if_neg hbal, if_neg hne]
  rfl

/-- handleTransfer on the path where the destination update fails: every
later step still runs and the 201 response is returned. -/
theorem handleTransfer_run_failTo
    {db : Db} {env : Env} {uid : String}
    {req : TxnOrTransfer.TransferRequest} {fromAccount toAccount : Account}
    (hamt : ¬ req.amount ≤ 0)
    (hfrom : maybeSingle
        (db.accounts.filter (TxnOrTransfer.fromFilter req uid)) =
      Except.ok (some fromAccount))
    (hbal : ¬ fromAccount.balance < req.amount)
    (hto : maybeSingle (db.accounts.filter (TxnOrTransfer.toFilter req)) =
      Except.ok (some toAccount))
    (h1 : env.failUpdateFrom = false) (h2 : env.failUpdateTo = true)
    (h3 : env.failInsertTransfer = false) (h4 : env.failInsertTxns = false) :
    (TxnOrTransfer.handleTransfer db env uid req).1.status = 201 ∧
    (TxnOrTransfer.handleTransfer db env uid req).2.1.accounts =
      updateBalanceById db.accounts fromAccount.id
        (fromAccount.balance - req.amount) := by
  simp only [TxnOrTransfer.handleTransfer, hfrom, hto, h1, h2, h3, h4,
    if_neg hamt, if_neg hbal]
  exact ⟨trivial, rfl⟩

/-- C4, counterexample: in the create-transaction-or-transfer handler a
transfer of 30 whose destination update fails leaves the source debited at
70 while the destination stays at 50, performs no compensating rollback,
and still answers 201 — the store is not left as if the transfer never
started and the failure is not even reported. -/
theorem C4_counterexample :
    (TxnOrTransfer.run exDb { exEnv with failUpdateTo := true } (some "x")
        (TxnOrTransfer.RequestBody.transfer ⟨"N1", "N2", 30, none⟩)).1.status
      = 201 ∧
    ((TxnOrTransfer.run exDb { exEnv with failUpdateTo := true } (some "x")
        (TxnOrTransfer.RequestBody.transfer ⟨"N1", "N2", 30, none⟩)).2.1.accounts.map
      fun a => a.balance) = [70, 50] ∧
    ¬ ((TxnOrTransfer.run exDb { exEnv with failUpdateTo := true } (some "x")
        (TxnOrTransfer.RequestBody.transfer ⟨"N1", "N2", 30, none⟩)).2.1.accounts.map
      fun a => a.balance) = [100, 50] := by
  refine ⟨rfl, by decide, by decide⟩

/-- C4 (amended): in the create-transfer handler, when the source update
succeeds, the destination update fails and the rollback write succeeds,
the source balance is restored to its original value and the error is
reported with status 500, the store left exactly as before the transfer.
The create-transaction-or-transfer handler performs no rollback and no
error detection: when its destination update fails, the source stays
debited, the destination is not credited, and the handler still reports
success with status 201. -/
theorem C4_theorem :
    (∀ (db : Db) (env : Env) (h uid : String)
      (req : CreateTransfer.TransferRequest)
      (fromAccount toAccount : Account),
      WellFormed db →
      env.getUser (stripBearer h) = some uid →
      ¬ req.amount ≤ 0 →
      single (db.accounts.filter (CreateTransfer.fromFilter req uid)) =
        Except.ok fromAccount →
      ¬ fromAccount.balance < req.amount →
      single (db.accounts.filter (CreateTransfer.toFilter req)) =
        Except.ok toAccount →
      fromAccount.id ≠ toAccount.id →
      env.failUpdateFrom = false → env.failUpdateTo = true →
      env.failRollback = false →
      (CreateTransfer.run db env (some h) req).1.status = 500 ∧
      (CreateTransfer.run db env (some h) req).2.1 = db) ∧
    (∀ (db : Db) (env : Env) (h uid : String)
      (req : TxnOrTransfer.TransferRequest)
      (fromAccount toAccount : Account),
      WellFormed db →
      env.getUser (stripBearer h) = some uid →
      ¬ req.amount ≤ 0 →
      maybeSingle (db.accounts.filter (TxnOrTransfer.fromFilter req uid)) =
        Except.ok (some fromAccount) →
      ¬ fromAccount.balance < req.amount →
      maybeSingle (db.accounts.filter (TxnOrTransfer.toFilter req)) =
        Except.ok (some toAccount) →
      fromAccount.id ≠ toAccount.id →
      env.failUpdateFrom = false → env.failUpdateTo = true →
      env.failInsertTransfer = false → env.failInsertTxns = false →
      (TxnOrTransfer.run db env (some h)
        (TxnOrTransfer.RequestBody.transfer req)).1.status = 201 ∧
      (((TxnOrTransfer.run db env (some h)
          (TxnOrTransfer.RequestBody.transfer req)).2.1.accounts.filter
          (fun a => a.id = fromAccount.id)).map fun a => a.balance) =
        [fromAccount.balance - req.amount] ∧
      (((TxnOrTransfer.run db env (some h)
          (TxnOrTransfer.RequestBody.transfer req)).2.1.accounts.filter
          (fun a => a.id = toAccount.id)).map fun a => a.balance) =
        [toAccount.balance]) := by
  constructor
  · intro db env h uid req fromAccount toAccount wf hu hamt hfrom hbal hto
      hne h1 h2 h3
    rw [createTransfer_run_rollback hu hamt hfrom hbal hto hne h1 h2 h3]
    have hfmem := (mem_of_filter_eq_singleton (single_eq_ok hfrom)).1
    exact ⟨rfl, by
      show ({ db with accounts := _ } : Db) = db
      rw [updateBalanceById_restore wf hfmem]⟩
  · intro db env h uid req fromAccount toAccount wf hu hamt hfrom hbal hto
      hne h1 h2 h3 h4
    have hrun : TxnOrTransfer.run db env (some h)
        (TxnOrTransfer.RequestBody.transfer req) =
        TxnOrTransfer.handleTransfer db env uid req := by
      simp only [TxnOrTransfer.run, hu]
    obtain ⟨hs, hacc⟩ :=
      handleTransfer_run_failTo hamt hfrom hbal hto h1 h2 h3 h4
    have hfmem := (mem_of_filter_eq_singleton (maybeSingle_eq_ok_some hfrom)).1
    have htmem := (mem_of_filter_eq_singleton (maybeSingle_eq_ok_some hto)).1
    have hf : db.accounts.filter (fun x => x.id = fromAccount.id) =
        [fromAccount] := wf.filter_id hfmem
    have ht : db.accounts.filter (fun x => x.id = toAccount.id) =
        [toAccount] := wf.filter_id htmem
    refine ⟨by rw [hrun]; exact hs, ?_, ?_⟩
    · rw [hrun, hacc, filter_id_updateBalanceById_self, hf]
      rfl
    · rw [hrun, hacc, filter_id_updateBalanceById_ne _ _ (Ne.symm hne), ht]
      rfl

/-- C4, witness: both parts of the amended theorem applied to the concrete
two-account store with the destination update failing. -/
theorem C4_witness :
    (CreateTransfer.run exDb { exEnv with failUpdateTo := true } (some "x")
      ⟨"a1", "N2", 30, none⟩).1.status = 500 ∧
    (CreateTransfer.run exDb { exEnv with failUpdateTo := true } (some "x")
      ⟨"a1", "N2", 30, none⟩).2.1 = exDb ∧
    (TxnOrTransfer.run exDb { exEnv with failUpdateTo := true } (some "x")
      (TxnOrTransfer.RequestBody.transfer ⟨"N1", "N2", 30, none⟩)).1.status
      = 201 := by
  obtain ⟨hs, hdb⟩ := C4_theorem.1 exDb { exEnv with failUpdateTo := true }
    "x" "u1" ⟨"a1", "N2", 30, none⟩ exA exB (by decide) (by decide)
    (by decide) rfl (by decide) rfl (by decide) rfl rfl rfl
  obtain ⟨hs2, _⟩ := C4_theorem.2 exDb { exEnv with failUpdateTo := true }
    "x" "u1" ⟨"N1", "N2", 30, none⟩ exA exB (by decide) (by decide)
    (by decide) rfl (by decide) rfl (by decide) rfl rfl rfl rfl
  exact ⟨hs, hdb, hs2⟩

/-! ## C5: authentication before any database access -/

/-- C5, counterexample: the signup handler serves a request that carries no
Authorization header at all, answers 201, and writes a profile row into the
store — it never authenticates the caller against the identity provider
before its writes, refuting the claim for this handler. -/
theorem C5_counterexample :
    (Signup.run exDb exEnv none
      ⟨"e@x", "pw", "Full Name", none, none, none⟩).1.status = 201 ∧
    (Signup.run exDb exEnv none
      ⟨"e@x", "pw", "Full Name", none, none, none⟩).2.1.profiles.length =
      exDb.profiles.length + 1 ∧
    (Signup.run exDb exEnv none
      ⟨"e@x", "pw", "Full Name", none, none, none⟩).2.2 =
      [DbOp.insertProfile] := by
  refine ⟨rfl, by decide, rfl⟩

/-- C5 (amended): every handler except signup authenticates the caller
before touching the store: a request without an Authorization header gets
status 401 with the missing-header error, a request whose token the
identity provider rejects gets status 401 Unauthorized, and in both cases
the store is unchanged and no database operation is issued.  Get-balance
first validates its query parameters (this is stated for requests carrying
one); signup requires no Authorization header and performs its write
unauthenticated. -/
theorem C5_theorem :
    (∀ (db : Db) (env : Env) (req : CreateTransfer.TransferRequest)
      (h : String),
      CreateTransfer.run db env none req =
        (CreateTransfer.Response.err 401 "Missing authorization header",
          db, []) ∧
      (env.getUser (stripBearer h) = none →
        CreateTransfer.run db env (some h) req =
          (CreateTransfer.Response.err 401 "Unauthorized", db, []))) ∧
    (∀ (db : Db) (env : Env) (body : TxnOrTransfer.RequestBody) (h : String),
      TxnOrTransfer.run db env none body =
        (TxnOrTransfer.Response.err 401 "Missing authorization header",
          db, []) ∧
      (env.getUser (stripBearer h) = none →
        TxnOrTransfer.run db env (some h) body =
          (TxnOrTransfer.Response.err 401 "Unauthorized", db, []))) ∧
    (∀ (db : Db) (env : Env) (aN uP : Option String) (h : String),
      (truthy aN = true ∨ truthy uP = true) →
      GetBalance.run db env aN uP none =
        (GetBalance.Response.err 401 "Missing authorization header",
          db, []) ∧
      (env.getUser (stripBearer h) = none →
        GetBalance.run db env aN uP (some h) =
          (GetBalance.Response.err 401 "Unauthorized", db, []))) ∧
    (∀ (db : Db) (env : Env) (h : String),
      GetProfile.run db env none =
        (GetProfile.Response.err 401 "Missing authorization header",
          db, []) ∧
      (env.getUser (stripBearer h) = none →
        GetProfile.run db env (some h) =
          (GetProfile.Response.err 401 "Unauthorized", db, []))) ∧
    (∀ (db : Db) (env : Env) (aN : Option String) (lim : Option Nat)
      (h : String),
      GetTransactions.run db env none aN lim =
        (GetTransactions.Response.err 401 "Missing authorization header",
          db, []) ∧
      (env.getUser (stripBearer h) = none →
        GetTransactions.run db env (some h) aN lim =
          (GetTransactions.Response.err 401 "Unauthorized", db, []))) ∧
    (∀ (db : Db) (env : Env) (req : CreateAccount.CreateAccountRequest)
      (h : String),
      CreateAccount.run db env none req =
        (CreateAccount.Response.err 401 "Missing authorization header",
          db, []) ∧
      (env.getUser (stripBearer h) = none →
        CreateAccount.run db env (some h) req =
          (CreateAccount.Response.err 401 "Unauthorized", db, []))) := by
  refine ⟨?_, ?_, ?_, ?_, ?_, ?_⟩
  · intro db env req h
    exact ⟨rfl, fun hb => by simp only [CreateTransfer.run, hb]⟩
  · intro db env body h
    exact ⟨rfl, fun hb => by simp only [TxnOrTransfer.run, hb]⟩
  · intro db env aN uP h hp
    have hcond : ¬ (¬ truthy aN = true ∧ ¬ truthy uP = true) := by
      rcases hp with hp | hp
      · exact fun hc => hc.1 hp
      · exact fun hc => hc.2 hp
    constructor
    · simp only [GetBalance.run, if_neg hcond]
    · intro hb
      simp only [GetBalance.run, if_neg hcond, hb]
  · intro db env h
    exact ⟨rfl, fun hb => by simp only [GetProfile.run, hb]⟩
  · intro db env aN lim h
    exact ⟨rfl, fun hb => by simp only [GetTransactions.run, hb]⟩
  · intro db env req h
    exact ⟨rfl, fun hb => by simp only [CreateAccount.run, hb]⟩

/-- C5, witness: the amended theorem applied to the concrete store: the
missing-header and the rejected-token case of the create-transfer handler,
and the rejected-token case of get-balance with a parameter present. -/
theorem C5_witness :
    CreateTransfer.run exDb exEnvReject none ⟨"a1", "N2", 30, none⟩ =
      (CreateTransfer.Response.err 401 "Missing authorization header",
        exDb, []) ∧
    CreateTransfer.run exDb exEnvReject (some "x") ⟨"a1", "N2", 30, none⟩ =
      (CreateTransfer.Response.err 401 "Unauthorized", exDb, []) ∧
    GetBalance.run exDb exEnvReject (some "N1") none (some "x") =
      (GetBalance.Response.err 401 "Unauthorized", exDb, []) := by
  obtain ⟨w1, w2⟩ := C5_theorem.1 exDb exEnvReject ⟨"a1", "N2", 30, none⟩ "x"
  obtain ⟨_, w3⟩ := C5_theorem.2.2.1 exDb exEnvReject (some "N1") none "x"
    (Or.inl (by decide))
  exact ⟨w1, w2 rfl, w3 rfl⟩

/-! ## C6: order of steps and no write before the guards -/

/-- C6: in both transfer handlers the successful execution issues exactly
the trace  source read, destination read, reference-number rpc, source
balance update, destination balance update, transfer insert, transactions
insert  — the balance check sits between the two reads, the dual balance
update precedes the transfer record, which precedes the transaction
records.  Moreover on every path on which a guard fails (non-positive
amount, source lookup failure, insufficient balance, destination lookup
failure, or — for create-transfer — same account) the issued trace contains
no write at all. -/
theorem C6_theorem :
    (∀ (db : Db) (env : Env) (h uid : String)
      (req : CreateTransfer.TransferRequest)
      (fromAccount toAccount : Account),
      env.getUser (stripBearer h) = some uid →
      ¬ req.amount ≤ 0 →
      single (db.accounts.filter (CreateTransfer.fromFilter req uid)) =
        Except.ok fromAccount →
      ¬ fromAccount.balance < req.amount →
      single (db.accounts.filter (CreateTransfer.toFilter req)) =
        Except.ok toAccount →
      fromAccount.id ≠ toAccount.id →
      env.failUpdateFrom = false → env.failUpdateTo = false →
      env.failInsertTransfer = false → env.failInsertTxns = false →
      (CreateTransfer.run db env (some h) req).2.2 =
        [DbOp.selectAccounts, DbOp.selectAccounts, DbOp.rpcRef,
          DbOp.updateAccount fromAccount.id,
          DbOp.updateAccount toAccount.id,
          DbOp.insertTransfer, DbOp.insertTransactions]) ∧
    (∀ (db : Db) (env : Env) (h uid : String)
      (req : TxnOrTransfer.TransferRequest)
      (fromAccount toAccount : Account),
      env.getUser (stripBearer h) = some uid →
      ¬ req.amount ≤ 0 →
      maybeSingle (db.accounts.filter (TxnOrTransfer.fromFilter req uid)) =
        Except.ok (some fromAccount) →
      ¬ fromAccount.balance < req.amount →
      maybeSingle (db.accounts.filter (TxnOrTransfer.toFilter req)) =
        Except.ok (some toAccount) →
      env.failUpdateFrom = false → env.failUpdateTo = false →
      env.failInsertTransfer = false → env.failInsertTxns = false →
      (TxnOrTransfer.run db env (some h)
        (TxnOrTransfer.RequestBody.transfer req)).2.2 =
        [DbOp.selectAccounts, DbOp.selectAccounts, DbOp.rpcRef,
          DbOp.updateAccount fromAccount.id,
          DbOp.updateAccount toAccount.id,
          DbOp.insertTransfer, DbOp.insertTransactions]) ∧
    (∀ (db : Db) (env : Env) (h uid : String)
      (req : CreateTransfer.TransferRequest),
      env.getUser (stripBearer h) = some uid →
      (req.amount ≤ 0 →
        ((CreateTransfer.run db env (some h) req).2.2).filter
          (fun op => op.isWrite) = []) ∧
      (∀ e, single (db.accounts.filter (CreateTransfer.fromFilter req uid)) =
          Except.error e →
        ((CreateTransfer.run db env (some h) req).2.2).filter
          (fun op => op.isWrite) = []) ∧
      (∀ fromAccount,
        single (db.accounts.filter (CreateTransfer.fromFilter req uid)) =
          Except.ok fromAccount →
        fromAccount.balance < req.amount →
        ((CreateTransfer.run db env (some h) req).2.2).filter
          (fun op => op.isWrite) = []) ∧
      (∀ fromAccount e,
        single (db.accounts.filter (CreateTransfer.fromFilter req uid)) =
          Except.ok fromAccount →
        single (db.accounts.filter (CreateTransfer.toFilter req)) =
          Except.error e →
        ((CreateTransfer.run db env (some h) req).2.2).filter
          (fun op => op.isWrite) = []) ∧
      (∀ fromAccount toAccount,
        single (db.accounts.filter (CreateTransfer.fromFilter req uid)) =
          Except.ok fromAccount →
        single (db.accounts.filter (CreateTransfer.toFilter req)) =
          Except.ok toAccount →
        fromAccount.id = toAccount.id →
        ((CreateTransfer.run db env (some h) req).2.2).filter
          (fun op => op.isWrite) = [])) ∧
    (∀ (db : Db) (env : Env) (h uid : String)
      (req : TxnOrTransfer.TransferRequest),
      env.getUser (stripBearer h) = some uid →
      (req.amount ≤ 0 →
        ((TxnOrTransfer.run db env (some h)
          (TxnOrTransfer.RequestBody.transfer req)).2.2).filter
          (fun op => op.isWrite) = []) ∧
      (maybeSingle (db.accounts.filter (TxnOrTransfer.fromFilter req uid)) =
          Except.ok none →
        ((TxnOrTransfer.run db env (some h)
          (TxnOrTransfer.RequestBody.transfer req)).2.2).filter
          (fun op => op.isWrite) = []) ∧
      (∀ fromAccount,
        maybeSingle (db.accounts.filter (TxnOrTransfer.fromFilter req uid)) =
          Except.ok (some fromAccount) →
        fromAccount.balance < req.amount →
        ((TxnOrTransfer.run db env (some h)
          (TxnOrTransfer.RequestBody.transfer req)).2.2).filter
          (fun op => op.isWrite) = []) ∧
      (∀ fromAccount,
        maybeSingle (db.accounts.filter (TxnOrTransfer.fromFilter req uid)) =
          Except.ok (some fromAccount) →
        ¬ fromAccount.balance < req.amount →
        maybeSingle (db.accounts.filter (TxnOrTransfer.toFilter req)) =
          Except.ok none →
        ((TxnOrTransfer.run db env (some h)
          (TxnOrTransfer.RequestBody.transfer req)).2.2).filter
          (fun op => op.isWrite) = [])) := by
  refine ⟨?_, ?_, ?_, ?_⟩
  · intro db env h uid req fromAccount toAccount hu hamt hfrom hbal hto hne
      h1 h2 h3 h4
    rw [createTransfer_run_success hu hamt hfrom hbal hto hne h1 h2 h3 h4]
  · intro db env h uid req fromAccount toAccount hu hamt hfrom hbal hto
      h1 h2 h3 h4
    have hrun : TxnOrTransfer.run db env (some h)
        (TxnOrTransfer.RequestBody.transfer req) =
        TxnOrTransfer.handleTransfer db env uid req := by
      simp only [TxnOrTransfer.run, hu]
    rw [hrun, handleTransfer_run_success hamt hfrom hbal hto h1 h2 h3 h4]
  · intro db env h uid req hu
    refine ⟨?_, ?_, ?_, ?_, ?_⟩
    · intro hamt
      simp only [CreateTransfer.run, hu, if_pos hamt]
      rfl
    · intro e hfrom
      simp only [CreateTransfer.run, hu, hfrom]
      split_ifs <;> rfl
    · intro fromAccount hfrom hbal
      simp only [CreateTransfer.run, hu, hfrom, if_pos hbal]
      split_ifs <;> rfl
    · intro fromAccount e hfrom hto
      simp only [CreateTransfer.run, hu, hfrom, hto]
      split_ifs <;> rfl
    · intro fromAccount toAccount hfrom hto hsame
      simp only [CreateTransfer.run, hu, hfrom, hto, if_pos hsame]
      split_ifs <;> rfl
  · intro db env h uid req hu
    have hrun : TxnOrTransfer.run db env (some h)
        (TxnOrTransfer.RequestBody.transfer req) =
        TxnOrTransfer.handleTransfer db env uid req := by
      simp only [TxnOrTransfer.run, hu]
    refine ⟨?_, ?_, ?_, ?_⟩
    · intro hamt
      rw [hrun]
      simp only [TxnOrTransfer.handleTransfer, if_pos hamt]
      rfl
    · intro hfrom
      rw [hrun]
      simp only [TxnOrTransfer.handleTransfer, hfrom]
      split_ifs <;> rfl
    · intro fromAccount hfrom hbal
      rw [hrun]
      simp only [TxnOrTransfer.handleTransfer, hfrom, if_pos hbal]
      split_ifs <;> rfl
    · intro fromAccount hfrom hbal hto
      rw [hrun]
      simp only [TxnOrTransfer.handleTransfer, hfrom, hto, if_neg hbal]
      split_ifs <;> rfl

/-- C6, witness: the success trace of a concrete transfer of 30 through
each handler, and the writeless trace of a concrete failing request. -/
theorem C6_witness :
    (CreateTransfer.run exDb exEnv (some "x")
      ⟨"a1", "N2", 30, none⟩).2.2 =
      [DbOp.selectAccounts, DbOp.selectAccounts, DbOp.rpcRef,
        DbOp.updateAccount exA.id, DbOp.updateAccount exB.id,
        DbOp.insertTransfer, DbOp.insertTransactions] ∧
    (TxnOrTransfer.run exDb exEnv (some "x")
      (TxnOrTransfer.RequestBody.transfer ⟨"N1", "N2", 30, none⟩)).2.2 =
      [DbOp.selectAccounts, DbOp.selectAccounts, DbOp.rpcRef,
        DbOp.updateAccount exA.id, DbOp.updateAccount exB.id,
        DbOp.insertTransfer, DbOp.insertTransactions] ∧
    ((CreateTransfer.run exDb exEnv (some "x")
      ⟨"a1", "N2", 1000, none⟩).2.2).filter (fun op => op.isWrite) = [] := by
  refine ⟨?_, ?_, ?_⟩
  · exact C6_theorem.1 exDb exEnv "x" "u1" ⟨"a1", "N2", 30, none⟩ exA exB
      (by decide) (by decide) rfl (by decide) rfl (by decide)
      rfl rfl rfl rfl
  · exact C6_theorem.2.1 exDb exEnv "x" "u1" ⟨"N1", "N2", 30, none⟩ exA exB
      (by decide) (by decide) rfl (by decide) rfl rfl rfl rfl rfl
  · exact (C6_theorem.2.2.1 exDb exEnv "x" "u1" ⟨"a1", "N2", 1000, none⟩
      (by decide)).2.2.1 exA rfl (by decide)

/-! ## C7: stateless request handling -/

/-- A sequential run distributes over appending one request: the appended
request is served purely from the database state the run reached. -/
theorem serverRun_append (db : Db) (hist : List ServeInput) (r : ServeInput) :
    serverRun db (hist ++ [r]) =
      ((serverRun db hist).1 ++ [(serveStep r (serverRun db hist).2).1],
        (serveStep r (serverRun db hist).2).2) := by
  induction hist generalizing db with
  | nil => rfl
  | cons x xs ih =>
    simp only [List.cons_append, serverRun, List.append_eq, ih]

/-- C7: the create-transaction-or-transfer service holds no in-process
state.  First, serving a request sequence is a pure fold of the single-step
function over the database.  Second, the response, write trace and
resulting store of the next request are a function of only that request
(with its environment) and the database state reached: two runs from any
two histories and initial stores that arrive at the same database serve
the next request identically. -/
theorem C7_theorem :
    (∀ (db : Db) (hist : List ServeInput) (r : ServeInput),
      serverRun db (hist ++ [r]) =
        ((serverRun db hist).1 ++ [(serveStep r (serverRun db hist).2).1],
          (serveStep r (serverRun db hist).2).2)) ∧
    (∀ (hist1 hist2 : List ServeInput) (db1 db2 : Db) (r : ServeInput),
      (serverRun db1 hist1).2 = (serverRun db2 hist2).2 →
      serveStep r (serverRun db1 hist1).2 =
        serveStep r (serverRun db2 hist2).2) := by
  refine ⟨serverRun_append, ?_⟩
  intro hist1 hist2 db1 db2 r he
  rw [he]

/-- C7, witness: an empty history and a history consisting of one rejected
request leave the same store, and the next transfer request is then served
identically after either history. -/
theorem C7_witness :
    (serverRun exDb ([] : List ServeInput)).2 =
      (serverRun exDb [⟨exEnvReject, some "x",
        TxnOrTransfer.RequestBody.transfer ⟨"N1", "N2", 30, none⟩⟩]).2 ∧
    serveStep ⟨exEnv, some "x",
        TxnOrTransfer.RequestBody.transfer ⟨"N1", "N2", 30, none⟩⟩
      (serverRun exDb ([] : List ServeInput)).2 =
      serveStep ⟨exEnv, some "x",
        TxnOrTransfer.RequestBody.transfer ⟨"N1", "N2", 30, none⟩⟩
      (serverRun exDb [⟨exEnvReject, some "x",
        TxnOrTransfer.RequestBody.transfer ⟨"N1", "N2", 30, none⟩⟩]).2 := by
  refine ⟨by decide, ?_⟩
  exact C7_theorem.2 [] [⟨exEnvReject, some "x",
    TxnOrTransfer.RequestBody.transfer ⟨"N1", "N2", 30, none⟩⟩]
    exDb exDb ⟨exEnv, some "x",
      TxnOrTransfer.RequestBody.transfer ⟨"N1", "N2", 30, none⟩⟩
    (by decide)

/-! ## C8: the positive-amount guard -/

/-- C8: an authenticated deposit, withdrawal or transfer request whose
amount is not strictly positive is answered with status 400 and the
amount-guard error of its handler — Amount must be greater than 0 in
create-transfer, Amount must be > 0 in create-transaction-or-transfer —
with the store unchanged and an empty operation trace: no table is
touched. -/
theorem C8_theorem :
    (∀ (db : Db) (env : Env) (h uid : String)
      (req : CreateTransfer.TransferRequest),
      env.getUser (stripBearer h) = some uid →
      req.amount ≤ 0 →
      CreateTransfer.run db env (some h) req =
        (CreateTransfer.Response.err 400 "Amount must be greater than 0",
          db, [])) ∧
    (∀ (db : Db) (env : Env) (h uid : String)
      (req : TxnOrTransfer.TransactionRequest),
      env.getUser (stripBearer h) = some uid →
      req.amount ≤ 0 →
      TxnOrTransfer.run db env (some h) (TxnOrTransfer.RequestBody.txn req) =
        (TxnOrTransfer.Response.err 400 "Amount must be > 0", db, [])) ∧
    (∀ (db : Db) (env : Env) (h uid : String)
      (req : TxnOrTransfer.TransferRequest),
      env.getUser (stripBearer h) = some uid →
      req.amount ≤ 0 →
      TxnOrTransfer.run db env (some h)
          (TxnOrTransfer.RequestBody.transfer req) =
        (TxnOrTransfer.Response.err 400 "Amount must be > 0", db, [])) := by
  refine ⟨?_, ?_, ?_⟩
  · intro db env h uid req hu hamt
    simp only [CreateTransfer.run, hu, if_pos hamt]
  · intro db env h uid req hu hamt
    simp only [TxnOrTransfer.run, hu, TxnOrTransfer.handleTransaction,
      if_pos hamt]
  · intro db env h uid req hu hamt
    simp only [TxnOrTransfer.run, hu, TxnOrTransfer.handleTransfer,
      if_pos hamt]

/-- C8, witness: a zero deposit, a zero-amount transfer and a negative
create-transfer request each bounce off the amount guard with the store
unchanged. -/
theorem C8_witness :
    CreateTransfer.run exDb exEnv (some "x") ⟨"a1", "N2", -5, none⟩ =
      (CreateTransfer.Response.err 400 "Amount must be greater than 0",
        exDb, []) ∧
    TxnOrTransfer.run exDb exEnv (some "x")
        (TxnOrTransfer.RequestBody.txn ⟨"N1", "deposit", 0, none, none⟩) =
      (TxnOrTransfer.Response.err 400 "Amount must be > 0", exDb, []) ∧
    TxnOrTransfer.run exDb exEnv (some "x")
        (TxnOrTransfer.RequestBody.transfer ⟨"N1", "N2", 0, none⟩) =
      (TxnOrTransfer.Response.err 400 "Amount must be > 0", exDb, []) := by
  refine ⟨?_, ?_, ?_⟩
  · exact C8_theorem.1 exDb exEnv "x" "u1" ⟨"a1", "N2", -5, none⟩
      (by decide) (by decide)
  · exact C8_theorem.2.1 exDb exEnv "x" "u1" ⟨"N1", "deposit", 0, none, none⟩
      (by decide) (by decide)
  · exact C8_theorem.2.2 exDb exEnv "x" "u1" ⟨"N1", "N2", 0, none⟩
      (by decide) (by decide)

/-! ## Helper lemmas about the descending sort -/

theorem sortByDesc_perm {α : Type} (key : α → Nat) (l : List α) :
    List.Perm (sortByDesc key l) l :=
  List.perm_insertionSort _ l

theorem mem_sortByDesc {α : Type} {key : α → Nat} {l : List α} {x : α} :
    x ∈ sortByDesc key l ↔ x ∈ l :=
  (sortByDesc_perm key l).mem_iff

theorem sum_map_sortByDesc {α : Type} (key : α → Nat) (f : α → ℤ)
    (l : List α) : ((sortByDesc key l).map f).sum = (l.map f).sum :=
  ((sortByDesc_perm key l).map f).sum_eq

theorem sorted_sortByDesc {α : Type} (key : α → Nat) (l : List α) :
    (sortByDesc key l).Sorted (fun a b => key b ≤ key a) := by
  haveI : IsTotal α (fun a b => key b ≤ key a) :=
    ⟨fun a b => Nat.le_total (key b) (key a)⟩
  haveI : IsTrans α (fun a b => key b ≤ key a) :=
    ⟨fun a b c hab hbc => Nat.le_trans hbc hab⟩
  exact List.sorted_insertionSort _ l

theorem length_sortByDesc {α : Type} (key : α → Nat) (l : List α) :
    (sortByDesc key l).length = l.length :=
  (sortByDesc_perm key l).length_eq

/-! ## C9: get-balance returns only data of the caller -/

/-- The single row the get-balance lookup locates is a row of the accounts
table. -/
theorem mem_of_lookupRows {db : Db} {aN uP : Option String} {a : Account}
    (h : GetBalance.lookupRows db aN uP = [a]) : a ∈ db.accounts := by
  unfold GetBalance.lookupRows at h
  split at h <;> exact (mem_of_filter_eq_singleton h).1

/-- The get-balance handler on the 200 path: the exact response. -/
theorem getBalance_run_success
    {db : Db} {env : Env} {aN uP : Option String} {h uid : String}
    {account : Account} {profOpt : Option Profile}
    (hp : ¬ (¬ truthy aN = true ∧ ¬ truthy uP = true))
    (hu : env.getUser (stripBearer h) = some uid)
    (hacct : maybeSingle (GetBalance.lookupRows db aN uP) =
      Except.ok (some account))
    (huser : account.user_id = uid)
    (hprof : maybeSingle (db.profiles.filter fun p => p.id = uid) =
      Except.ok profOpt) :
    GetBalance.run db env aN uP (some h) =
      (⟨200, none, profOpt, some account,
          sortByDesc (fun a => a.created_at)
            (db.accounts.filter fun a => a.user_id = uid),
          ((sortByDesc (fun a => a.created_at)
            (db.accounts.filter fun a => a.user_id = uid)).map
              fun a => a.balance).sum⟩,
        db,
        [DbOp.selectAccounts, DbOp.selectProfiles, DbOp.selectAccounts]) := by
  simp only [GetBalance.run, if_neg hp, hu, hacct, hprof,
    if_neg (show ¬ account.user_id ≠ uid from fun hx => hx huser)]

/-- C9: a get-balance request whose located account belongs to another
user is answered 403 Unauthorized access to this account with no write;
and every 200 response returns only data of the authenticated caller: the
located account row is a store row of the caller, the profile (when
present) is the profile row of the caller, every entry of all_accounts is
an account row of the caller, and total_balance is the sum of the balances
of the accounts of the caller. -/
theorem C9_theorem :
    (∀ (db : Db) (env : Env) (aN uP : Option String) (h uid : String)
      (account : Account),
      ¬ (¬ truthy aN = true ∧ ¬ truthy uP = true) →
      env.getUser (stripBearer h) = some uid →
      maybeSingle (GetBalance.lookupRows db aN uP) =
        Except.ok (some account) →
      account.user_id ≠ uid →
      GetBalance.run db env aN uP (some h) =
        (GetBalance.Response.err 403 "Unauthorized access to this account",
          db, [DbOp.selectAccounts])) ∧
    (∀ (db : Db) (env : Env) (aN uP : Option String) (h uid : String)
      (account : Account) (profOpt : Option Profile),
      ¬ (¬ truthy aN = true ∧ ¬ truthy uP = true) →
      env.getUser (stripBearer h) = some uid →
      maybeSingle (GetBalance.lookupRows db aN uP) =
        Except.ok (some account) →
      account.user_id = uid →
      maybeSingle (db.profiles.filter fun p => p.id = uid) =
        Except.ok profOpt →
      (GetBalance.run db env aN uP (some h)).1.status = 200 ∧
      (GetBalance.run db env aN uP (some h)).1.account = some account ∧
      account.user_id = uid ∧ account ∈ db.accounts ∧
      (∀ p, (GetBalance.run db env aN uP (some h)).1.profile = some p →
        p.id = uid ∧ p ∈ db.profiles) ∧
      (∀ a ∈ (GetBalance.run db env aN uP (some h)).1.all_accounts,
        a.user_id = uid ∧ a ∈ db.accounts) ∧
      (GetBalance.run db env aN uP (some h)).1.total_balance =
        ((db.accounts.filter fun a => a.user_id = uid).map
          fun a => a.balance).sum) := by
  constructor
  · intro db env aN uP h uid account hp hu hacct howner
    simp only [GetBalance.run, if_neg hp, hu, hacct, if_pos howner]
  · intro db env aN uP h uid account profOpt hp hu hacct huser hprof
    rw [getBalance_run_success hp hu hacct huser hprof]
    refine ⟨rfl, rfl, huser, mem_of_lookupRows (maybeSingle_eq_ok_some hacct),
      ?_, ?_, ?_⟩
    · intro p hpe
      have hfp : db.profiles.filter (fun p => p.id = uid) = [p] :=
        maybeSingle_eq_ok_some (hpe ▸ hprof)
      obtain ⟨hm, hf⟩ := mem_of_filter_eq_singleton hfp
      exact ⟨by simpa using hf, hm⟩
    · intro a ha
      have ha2 : a ∈ db.accounts.filter (fun a => a.user_id = uid) :=
        mem_sortByDesc.mp ha
      exact ⟨by simpa using List.of_mem_filter ha2,
        List.mem_of_mem_filter ha2⟩
    · exact sum_map_sortByDesc _ _ _

/-- C9, witness: looking up the account of another user by account number
yields 403; looking up an own account yields 200 with only data of the
caller and the correct total. -/
theorem C9_witness :
    GetBalance.run exDb exEnv (some "N2") none (some "x") =
      (GetBalance.Response.err 403 "Unauthorized access to this account",
        exDb, [DbOp.selectAccounts]) ∧
    (GetBalance.run exDb exEnv (some "N1") none (some "x")).1.status = 200 ∧
    (GetBalance.run exDb exEnv (some "N1") none
        (some "x")).1.total_balance =
      ((exDb.accounts.filter fun a => a.user_id = "u1").map
        fun a => a.balance).sum := by
  obtain ⟨hs, _, _, _, _, _, ht⟩ := C9_theorem.2 exDb exEnv (some "N1") none
    "x" "u1" exA none (by decide) (by decide) rfl (by decide) rfl
  exact ⟨C9_theorem.1 exDb exEnv (some "N2") none "x" "u1" exB
    (by decide) (by decide) rfl (by decide), hs, ht⟩

/-! ## C10: the merged, sorted, truncated get-transactions listing -/

/-- The get-transactions handler on the 200 path: the exact response. -/
theorem getTransactions_run_success
    {db : Db} {env : Env} {h uid : String} {aN : Option String}
    {lim : Option Nat} {account : Account}
    (hu : env.getUser (stripBearer h) = some uid)
    (htr : truthy aN = true)
    (hacct : maybeSingle (db.accounts.filter fun a =>
        a.account_number = aN.getD "" ∧ a.user_id = uid) =
      Except.ok (some account)) :
    GetTransactions.run db env (some h) aN lim =
      (⟨200, none,
          (sortByDesc (fun r => r.created_at)
            (GetTransactions.txnRecords db (aN.getD "") ++
              GetTransactions.transferRecords db account.id)).take
            (lim.getD 50)⟩,
        db,
        [DbOp.selectAccounts, DbOp.selectTransactions,
          DbOp.selectTransfers]) := by
  simp only [GetTransactions.run, hu, hacct,
    if_neg (show ¬ ¬ truthy aN = true from fun hx => hx htr)]

/-- C10: every successful get-transactions request on an owned account
answers 200 with a listing that holds at most limit entries (default 50
when the parameter is absent), is sorted by date most recent first, draws
every entry from the merge of the transaction records of the account with
the transfer records in which the account is sender or receiver, and is a
permutation of that whole merge whenever it fits within the limit. -/
theorem C10_theorem :
    ∀ (db : Db) (env : Env) (h uid : String) (aN : Option String)
      (lim : Option Nat) (account : Account),
      env.getUser (stripBearer h) = some uid →
      truthy aN = true →
      maybeSingle (db.accounts.filter fun a =>
          a.account_number = aN.getD "" ∧ a.user_id = uid) =
        Except.ok (some account) →
      (GetTransactions.run db env (some h) aN lim).1.status = 200 ∧
      (GetTransactions.run db env (some h) aN lim).1.transactions.length ≤
        lim.getD 50 ∧
      (GetTransactions.run db env (some h) aN
        lim).1.transactions.Sorted
          (fun a b => b.created_at ≤ a.created_at) ∧
      (∀ x ∈ (GetTransactions.run db env (some h) aN lim).1.transactions,
        x ∈ GetTransactions.txnRecords db (aN.getD "") ++
          GetTransactions.transferRecords db account.id) ∧
      ((GetTransactions.txnRecords db (aN.getD "") ++
          GetTransactions.transferRecords db account.id).length ≤
        lim.getD 50 →
        List.Perm (GetTransactions.run db env (some h) aN lim).1.transactions
          (GetTransactions.txnRecords db (aN.getD "") ++
            GetTransactions.transferRecords db account.id)) ∧
      (GetTransactions.run db env (some h) aN none).1.transactions =
        (GetTransactions.run db env (some h) aN (some 50)).1.transactions := by
  intro db env h uid aN lim account hu htr hacct
  rw [getTransactions_run_success hu htr hacct,
    @getTransactions_run_success db env h uid aN none account hu htr hacct,
    @getTransactions_run_success db env h uid aN (some 50) account
      hu htr hacct]
  refine ⟨rfl, ?_, ?_, ?_, ?_, rfl⟩
  · have hlt := List.length_take (lim.getD 50)
      (sortByDesc (fun r => r.created_at)
        (GetTransactions.txnRecords db (aN.getD "") ++
          GetTransactions.transferRecords db account.id))
    exact le_trans (le_of_eq hlt) (min_le_left _ _)
  · exact (sorted_sortByDesc _ _).sublist (List.take_sublist _ _)
  · intro x hx
    exact mem_sortByDesc.mp (List.take_subset _ _ hx)
  · intro hlen
    rw [List.take_of_length_le]
    · exact sortByDesc_perm _ _
    · rw [length_sortByDesc]
      exact hlen

/-- C10, witness: after one transfer of 30 from N1 to N2, the listing of
account N1 (owned by u1) contains its transaction record and the transfer
record, sorted, within the default limit of 50. -/
theorem C10_witness :
    (GetTransactions.run
      (TxnOrTransfer.run exDb exEnv (some "x")
        (TxnOrTransfer.RequestBody.transfer ⟨"N1", "N2", 30, none⟩)).2.1
      exEnv (some "x") (some "N1") none).1.status = 200 ∧
    (GetTransactions.run
      (TxnOrTransfer.run exDb exEnv (some "x")
        (TxnOrTransfer.RequestBody.transfer ⟨"N1", "N2", 30, none⟩)).2.1
      exEnv (some "x") (some "N1") none).1.transactions.length ≤ 50 ∧
    (GetTransactions.run
      (TxnOrTransfer.run exDb exEnv (some "x")
        (TxnOrTransfer.RequestBody.transfer ⟨"N1", "N2", 30, none⟩)).2.1
      exEnv (some "x") (some "N1") none).1.transactions.Sorted
        (fun a b => b.created_at ≤ a.created_at) := by
  obtain ⟨h1, h2, h3, _⟩ := C10_theorem
    (TxnOrTransfer.run exDb exEnv (some "x")
      (TxnOrTransfer.RequestBody.transfer ⟨"N1", "N2", 30, none⟩)).2.1
    exEnv "x" "u1" (some "N1") none
    ⟨"a1", "N1", "u1", "Current", 70, "BHD", "active", 1⟩
    (by decide) (by decide) rfl
  exact ⟨h1, h2, h3⟩

end Bank
